import Mathlib

/-!
# Verification of the BudgetCalculator document-analysis core

Shallow embedding of `backend/app/services/document_analysis.py`
(class `DocumentAnalysisService`) and proofs about it.

Modelling conventions:
* Python `str` is Lean `String`; character-level work happens on `List Char`.
* Python floats are modelled as `ℚ`; `round(x, n)` is modelled exactly,
  including Python's round-half-to-even tie rule.
* Python regex searches are modelled by hand-written scanners that implement
  the specific patterns of the source (leftmost, non-overlapping, greedy with
  the backtracking the concrete patterns can actually exercise).
* Database/session effects are modelled by explicit state passing; provider
  (AI service) calls are black boxes, modelled as `Option String` outcomes.
-/

set_option maxRecDepth 200000

namespace BudgetCalc

/-! ## Character and string utilities (Python `str` semantics, ASCII) -/

/-- Python `\s` / `str.strip()` whitespace (ASCII range, as produced by the
    source's own text handling). -/
def isPySpace (c : Char) : Bool :=
  c == ' ' || c == '\t' || c == '\n' || c == '\r' || c == '\x0b' || c == '\x0c'

/-- ASCII lower-casing of one character, as `str.lower()` does on ASCII. -/
def lowerC (c : Char) : Char :=
  if 'A' ≤ c && c ≤ 'Z' then Char.ofNat (c.toNat + 32) else c

/-- ASCII upper-casing of one character, as `str.upper()` does on ASCII. -/
def upperC (c : Char) : Char :=
  if 'a' ≤ c && c ≤ 'z' then Char.ofNat (c.toNat - 32) else c

def isAsciiAlpha (c : Char) : Bool :=
  ('a' ≤ c && c ≤ 'z') || ('A' ≤ c && c ≤ 'Z')

def isDigitC (c : Char) : Bool := '0' ≤ c && c ≤ '9'

/-- `str.lower()`. -/
def pyLower (s : String) : String := ⟨s.data.map lowerC⟩

/-- `str.upper()`. -/
def pyUpper (s : String) : String := ⟨s.data.map upperC⟩

/-- `l1` is a prefix of `l2` (plain recursive definition). -/
def isPre : List Char → List Char → Bool
  | [], _ => true
  | _ :: _, [] => false
  | a :: as, b :: bs => a == b && isPre as bs

/-- Python `needle in hay` (substring test) on character lists. -/
def hasSub (n : List Char) : List Char → Bool
  | [] => isPre n []
  | c :: t => isPre n (c :: t) || hasSub n t

/-- Python `needle in hay` on strings. -/
def pyContains (hay needle : String) : Bool := hasSub needle.data hay.data

/-- Drop leading Python whitespace. -/
def dw (l : List Char) : List Char := l.dropWhile isPySpace

/-- Drop trailing Python whitespace (specification form, convenient for
    induction). -/
def dtr : List Char → List Char
  | [] => []
  | c :: t => if dtr t = [] ∧ isPySpace c then [] else c :: dtr t

/-- Python `str.strip()` on character lists: remove leading and trailing
    whitespace (computed by stripping the front of the reversal; proved equal
    to `dtr ∘ dw` below). -/
def stripL (l : List Char) : List Char := (dw ((dw l).reverse)).reverse

/-- Tail-recursive list length (used only to compute scanner fuel). -/
def lengthTR (l : List Char) : Nat := go 0 l where
  go : Nat → List Char → Nat
    | acc, [] => acc
    | acc, _ :: t => go (acc + 1) t

/-- Python `str.strip()`. -/
def pyStrip (s : String) : String := ⟨stripL s.data⟩

/-- Python `str.title()`: each maximal alphabetic run gets an upper-case first
    letter, the rest lower-cased.  `prevAlpha` says whether the previous
    character was alphabetic. -/
def titleGo : Bool → List Char → List Char
  | _, [] => []
  | prevAlpha, c :: t =>
    if isAsciiAlpha c then
      (if prevAlpha then lowerC c else upperC c) :: titleGo true t
    else
      c :: titleGo false t

/-- Python `str.title()`. -/
def pyTitle (s : String) : String := ⟨titleGo false s.data⟩

/-- First segment of `s.split(',')` (i.e. `s.split(',')[0]`). -/
def splitCommaHead (s : String) : String := ⟨s.data.takeWhile (fun c => !(c == ','))⟩

/-- Number of words of `str.split()` (split on whitespace runs, no empties). -/
def wordCountGo : Bool → List Char → Nat
  | _, [] => 0
  | inWord, c :: t =>
    if isPySpace c then wordCountGo false t
    else (if inWord then 0 else 1) + wordCountGo true t

/-- `len(s.split())`. -/
def pyWordCount (s : String) : Nat := wordCountGo false s.data

/-! ## Python `round` on rationals

Python's `round(x, n)` rounds to `n` decimal digits with ties going to the
nearest even multiple (banker's rounding).  We model it exactly on `ℚ`. -/

/-- Round a rational to the nearest integer, ties to even. -/
def roundHalfEven (q : ℚ) : ℤ :=
  let f : ℤ := ⌊q⌋
  let r : ℚ := q - (f : ℚ)
  if r < 1/2 then f
  else if 1/2 < r then f + 1
  else if f % 2 = 0 then f else f + 1

/-- Python `round(x, 1)`. -/
def pyRound1 (q : ℚ) : ℚ := (roundHalfEven (q * 10) : ℚ) / 10

/-- Python `round(x, 2)`. -/
def pyRound2 (q : ℚ) : ℚ := (roundHalfEven (q * 100) : ℚ) / 100

/-! ## Estimator (`_estimate_project_hours`, `_calculate_project_cost`,
`_assess_complexity`) -/

/-- `base_hours` dictionary of `_estimate_project_hours`, with the
    `.get(application_type, 200)` default. -/
def base_hours (application_type : String) : ℕ :=
  if application_type = "web" then 200
  else if application_type = "mobile" then 300
  else if application_type = "both" then 400
  else if application_type = "desktop" then 250
  else if application_type = "api" then 150
  else 200

/-- `complexity_indicators` of `_estimate_project_hours`, in source order. -/
def complexity_indicators : List (String × ℕ) :=
  [("database", 40), ("user management", 30), ("authentication", 25),
   ("payment", 50), ("integration", 35), ("api", 30), ("reporting", 25),
   ("dashboard", 35), ("admin", 20), ("security", 30), ("compliance", 40),
   ("mobile", 50), ("real-time", 40), ("notification", 15), ("search", 20),
   ("analytics", 30), ("blockchain", 100), ("ai", 60), ("machine learning", 80)]

/-- The keyword-bonus accumulation loop of `_estimate_project_hours`. -/
def bonusFold (text_lower : String) : List (String × ℕ) → ℕ
  | [] => 0
  | (kw, add) :: rest =>
    (if pyContains text_lower kw then add else 0) + bonusFold text_lower rest

/-- `_estimate_project_hours(document_text, application_type)`. -/
def estimate_project_hours (document_text application_type : String) : ℚ :=
  let text_lower := pyLower document_text
  let hours : ℚ := (base_hours application_type : ℚ) + (bonusFold text_lower complexity_indicators : ℚ)
  let length_factor : ℚ := min ((document_text.length : ℚ) / 10000) 2
  pyRound1 (hours * (1 + length_factor))

/-- `_calculate_project_cost(hours, rate_card)`; the rate card is modelled by
    its list of values (`rate_card.values()`). -/
def calculate_project_cost (hours : ℚ) (rates : List ℚ) : ℚ :=
  let average_rate := rates.sum / (rates.length : ℚ)
  pyRound2 (hours * average_rate)

/-- `high_complexity_keywords` of `_assess_complexity`. -/
def high_complexity_keywords : List String :=
  ["enterprise", "complex", "integration", "scalable", "real-time",
   "blockchain", "ai", "machine learning", "microservices", "distributed"]

/-- `medium_complexity_keywords` of `_assess_complexity`. -/
def medium_complexity_keywords : List String :=
  ["dashboard", "reporting", "user management", "authentication",
   "payment", "api", "mobile", "responsive"]

/-- `sum(1 for keyword in kws if keyword in text_lower)`. -/
def keywordScore (text_lower : String) (kws : List String) : ℕ :=
  (kws.filter (fun kw => pyContains text_lower kw)).length

/-- `_assess_complexity(document_text, estimated_hours)` (with `estimated_hours`
    already numeric, as on every internal call site). -/
def assess_complexity (document_text : String) (estimated_hours : ℚ) : String :=
  let text_lower := pyLower document_text
  let high_score := keywordScore text_lower high_complexity_keywords
  let medium_score := keywordScore text_lower medium_complexity_keywords
  if 3 ≤ high_score ∨ 400 < estimated_hours then "High"
  else if 3 ≤ medium_score ∨ 200 < estimated_hours then "Medium"
  else "Low"

/-- The complexity rule as the specification words it: the keyword score
    decides alone whenever it reaches 3 (high score giving High, else the
    medium score giving Medium), and only otherwise do the hour thresholds
    apply.  Used to compare spec against code for the tie-break claim. -/
def assess_complexity_specRule (document_text : String) (estimated_hours : ℚ) : String :=
  let text_lower := pyLower document_text
  let high_score := keywordScore text_lower high_complexity_keywords
  let medium_score := keywordScore text_lower medium_complexity_keywords
  if 3 ≤ high_score then "High"
  else if 3 ≤ medium_score then "Medium"
  else if 400 < estimated_hours then "High"
  else if 200 < estimated_hours then "Medium"
  else "Low"

/-! ## Response Validator / Enhancer (`_format_ai_response`,
`_enhance_incomplete_response`) -/

/-- The `required_sections` marker list of `_format_ai_response` (source
    order). -/
def required_sections : List String :=
  ["**EXECUTIVE OVERVIEW:**",
   "**FUNCTIONAL REQUIREMENTS:**",
   "**TECHNICAL REQUIREMENTS:**",
   "**OPERATIONAL REQUIREMENTS:**",
   "**BUSINESS CONTEXT & CONSTRAINTS:**",
   "**SUCCESS CRITERIA & DELIVERABLES:**"]

/-- The default canned paragraph of `_enhance_incomplete_response` for each
    section header (the `required_sections` dict of that method). -/
def default_section_content (header : String) : String :=
  if header = "**EXECUTIVE OVERVIEW:**" then
    "This RFP outlines a comprehensive project initiative designed to address specific organizational needs and strategic objectives. The requesting organization seeks to implement a solution that will significantly improve operational efficiency and service delivery. The project represents a critical investment in technology infrastructure and process optimization. Success will drive measurable improvements in organizational performance and stakeholder satisfaction."
  else if header = "**FUNCTIONAL REQUIREMENTS:**" then
    "The solution must provide comprehensive functionality supporting core business processes and user workflows. Key capabilities include user management, data processing, reporting, and integration with existing systems. The system should offer intuitive user interfaces with role-based access controls and automated workflow management. Real-time processing and responsive design across multiple platforms are essential requirements."
  else if header = "**TECHNICAL REQUIREMENTS:**" then
    "The technical architecture must support scalable, secure, and reliable operations with modern technology standards. Integration capabilities with existing enterprise systems and third-party services are required. Performance specifications include high availability, data security, and compliance with industry standards. The solution should leverage cloud-native technologies with appropriate backup and disaster recovery capabilities."
  else if header = "**OPERATIONAL REQUIREMENTS:**" then
    "The system will serve multiple user groups with varying access levels and operational responsibilities. Deployment must accommodate existing infrastructure while minimizing disruption to current operations. Ongoing maintenance and support requirements include monitoring, updates, and user assistance. Training and change management support will be necessary for successful implementation and adoption."
  else if header = "**BUSINESS CONTEXT & CONSTRAINTS:**" then
    "This initiative operates within specific budget parameters and timeline constraints established by organizational priorities. Regulatory compliance and governance requirements must be maintained throughout implementation and operations. The project aligns with broader digital transformation goals and strategic business objectives. Resource allocation and stakeholder coordination will be critical success factors."
  else
    "Project success will be measured through specific performance metrics, user adoption rates, and operational efficiency improvements. Key deliverables include fully functional system, comprehensive documentation, user training, and ongoing support arrangements. Acceptance criteria focus on meeting functional requirements, performance benchmarks, and user satisfaction targets. Final delivery includes production deployment with validated performance and compliance standards."

/-- The block appended by `_enhance_incomplete_response` for one missing
    section: `f"\n\n{section_header}\n{default_content}"`. -/
def sectionBlock (header : String) : String :=
  "\n\n" ++ header ++ "\n" ++ default_section_content header

/-- The append loop of `_enhance_incomplete_response`: for each required
    section in order, append its block if the header is not yet contained in
    the accumulated response. -/
def enhanceFold (acc : String) : List String → String
  | [] => acc
  | h :: rest =>
    if pyContains acc h then enhanceFold acc rest
    else enhanceFold (acc ++ sectionBlock h) rest

/-- `_enhance_incomplete_response(partial_response)`. -/
def enhance_incomplete_response (partial_response : String) : String :=
  enhanceFold (pyStrip partial_response) required_sections

/-- `_format_ai_response(ai_response)`: if all six markers are present the
    response is returned `.strip()`ped, otherwise it is enhanced. -/
def format_ai_response (ai_response : String) : String :=
  if required_sections.all (fun s => pyContains ai_response s) then
    pyStrip ai_response
  else
    enhance_incomplete_response ai_response

/-! ## Offline mock summary (`_create_mock_rfp_summary` and helpers) -/

/-- `project_indicators` of `_detect_project_type`, in source (dict insertion)
    order. -/
def project_indicators : List (String × List String) :=
  [("Web Application", ["web", "website", "portal", "dashboard", "online"]),
   ("Mobile Application", ["mobile", "app", "ios", "android", "smartphone"]),
   ("Enterprise System", ["enterprise", "erp", "crm", "system integration"]),
   ("E-commerce Platform", ["ecommerce", "e-commerce", "online store", "shopping"]),
   ("Data Platform", ["data", "analytics", "reporting", "business intelligence"]),
   ("Custom Software", ["software", "application", "system", "platform"])]

/-- `_detect_project_type(text_lower)`. -/
def detect_project_type (text_lower : String) : String :=
  match project_indicators.find? (fun p => p.2.any (fun kw => pyContains text_lower kw)) with
  | some p => p.1
  | none => "Custom Software Solution"

/-- `feature_keywords` of `_detect_features`, in source order. -/
def feature_keywords : List (String × List String) :=
  [("user authentication", ["login", "auth", "user account", "registration"]),
   ("database management", ["database", "data storage", "data management"]),
   ("reporting and analytics", ["report", "analytics", "dashboard", "metrics"]),
   ("API integration", ["api", "integration", "web service", "third-party"]),
   ("mobile access", ["mobile", "smartphone", "tablet", "app"]),
   ("payment processing", ["payment", "billing", "transaction", "checkout"]),
   ("notification system", ["notification", "email", "alert", "messaging"]),
   ("search functionality", ["search", "filter", "query", "find"]),
   ("file management", ["upload", "download", "file", "document"]),
   ("security features", ["security", "encryption", "secure", "protection"])]

/-- `_detect_features(text_lower)`. -/
def detect_features (text_lower : String) : List String :=
  (feature_keywords.filter (fun p => p.2.any (fun kw => pyContains text_lower kw))).map (·.1)

/-- `_assess_complexity_by_features(word_count, features)`. -/
def assess_complexity_by_features (word_count : Nat) (features : List String) : String :=
  let wcScore : Nat :=
    if 2000 < word_count then 3 else if 1000 < word_count then 2
    else if 500 < word_count then 1 else 0
  let fc := features.length
  let fcScore : Nat := if 8 < fc then 3 else if 5 < fc then 2 else if 3 < fc then 1 else 0
  let complexity_score := wcScore + fcScore
  if 5 ≤ complexity_score then "high" else if 3 ≤ complexity_score then "medium" else "standard"

/-- `_create_mock_rfp_summary(document_text)`: the deterministic offline
    summary used when every AI service fails. -/
def create_mock_rfp_summary (document_text : String) : String :=
  let text_lower := pyLower document_text
  let word_count := pyWordCount document_text
  let project_type := detect_project_type text_lower
  let features := detect_features text_lower
  let complexity := assess_complexity_by_features word_count features
  let featJoin :=
    if features ≠ [] then String.intercalate ", " (features.take 3)
    else "user management, data processing, and reporting"
  "**EXECUTIVE OVERVIEW:**\nThis RFP outlines a comprehensive "
    ++ pyLower project_type
    ++ " initiative designed to address critical organizational needs and strategic business objectives. The requesting organization seeks to implement a modern solution that will significantly enhance operational efficiency, improve service delivery, and support digital transformation goals. The project represents a strategic investment in technology infrastructure that will enable scalable growth and competitive advantage. Success will drive measurable improvements in organizational performance, user satisfaction, and operational metrics.\n\n**FUNCTIONAL REQUIREMENTS:**\nThe solution must provide comprehensive functionality supporting core business processes including "
    ++ featJoin
    ++ ". Key capabilities include intuitive user interfaces, automated workflow management, real-time data processing, and comprehensive reporting and analytics. The system should offer role-based access controls, multi-user collaboration features, and seamless integration with existing business processes. Mobile accessibility and responsive design across multiple platforms are essential for supporting diverse user needs and usage patterns.\n\n**TECHNICAL REQUIREMENTS:**\nThe technical architecture must support "
    ++ complexity
    ++ " complexity operations with modern, scalable technology standards and cloud-native infrastructure. Integration capabilities with existing enterprise systems, third-party services, and external APIs are required to ensure seamless data flow and operational continuity. Performance specifications include high availability (99.9% uptime), robust security protocols, data encryption, and compliance with industry standards and regulations. The solution should leverage modern development frameworks with appropriate backup, disaster recovery, and monitoring capabilities.\n\n**OPERATIONAL REQUIREMENTS:**\nThe system will serve multiple user groups including end-users, administrators, and stakeholders with varying access levels and operational responsibilities. Deployment must accommodate existing organizational infrastructure while minimizing disruption to current operations and maintaining business continuity. Daily operations require intuitive interfaces, efficient workflows, and responsive support systems to ensure optimal user adoption and satisfaction. Ongoing maintenance includes regular updates, security patches, performance monitoring, and comprehensive user support and training programs.\n\n**BUSINESS CONTEXT & CONSTRAINTS:**\nThis initiative operates within specific organizational budget parameters and timeline constraints established by strategic business priorities and competitive market pressures. Regulatory compliance requirements, data privacy standards, and governance policies must be maintained throughout implementation and ongoing operations. The project aligns with broader digital transformation initiatives and long-term strategic business objectives focused on growth and operational excellence. Resource allocation, stakeholder coordination, and change management will be critical success factors requiring executive sponsorship and cross-functional collaboration.\n\n**SUCCESS CRITERIA & DELIVERABLES:**\nProject success will be measured through specific performance metrics including user adoption rates (target >80%), operational efficiency improvements (target >30%), and system performance benchmarks (response time <2 seconds). Key deliverables include fully functional production system, comprehensive technical documentation, user training materials, and ongoing support arrangements with defined service level agreements. Acceptance criteria focus on meeting all functional requirements, achieving performance targets, passing security audits, and maintaining user satisfaction scores above 85%. Final delivery includes production deployment with validated performance, comprehensive testing results, and documented compliance with all specified requirements and standards."

/-! ## Summary-side provider chain (`_generate_rfp_summary`,
`analyze_rfp_document` error skeleton)

Each AI service is a black box: its outcome is `none` when the call raises
(unavailable, network error, …) and `some raw` when it returns generated
text.  The successful service methods each run the raw text through
`_format_ai_response` before returning. -/

/-- The `for service_name, service_method in ai_services` loop of
    `_generate_rfp_summary`: first successful provider wins. -/
def firstSuccess : List (Option String) → Option String
  | [] => none
  | none :: rest => firstSuccess rest
  | some r :: _ => some r

/-- `_generate_rfp_summary`: first successful service's formatted output,
    else the offline mock summary. -/
def generate_rfp_summary (providers : List (Option String)) (document_text : String) : String :=
  match firstSuccess providers with
  | some raw => format_ai_response raw
  | none => create_mock_rfp_summary document_text

/-- Caller-visible failures of `analyze_rfp_document`. -/
inductive SummaryError where
  | rfpNotFound       -- `raise ValueError("RFP not found")`
  | documentNotFound  -- `raise ValueError("RFP document not found")`
  deriving DecidableEq, Repr

/-- The error skeleton of `analyze_rfp_document`: the RFP row is `none` when
    absent; an existing RFP carries `none` when its document path is unset or
    the file does not exist, and otherwise the extracted document text.
    With both present the summary generation runs and cannot fail. -/
def analyze_rfp_document (rfp : Option (Option String))
    (providers : List (Option String)) : Except SummaryError String :=
  match rfp with
  | none => .error .rfpNotFound
  | some none => .error .documentNotFound
  | some (some document_text) => .ok (generate_rfp_summary providers document_text)

/-! ## Technology stack extraction (`_extract_technology_stack_from_analysis`) -/

/-- The `tech_stack` dict shape. -/
structure TechStack where
  frontend : String
  backend : String
  database : String
  cloud : String
  application_type : String
  deriving DecidableEq, Repr

/-- The default stack (`tech_stack` initial value; also the literal dict
    passed to `_create_fallback_task_breakdown` at several call sites). -/
def defaultTechStack : TechStack :=
  { frontend := "react", backend := "python", database := "postgresql",
    cloud := "aws", application_type := "web" }

/-- The analysis row fields consulted by breakdown generation. -/
structure AnalysisRec where
  summary : Option String
  technology_stack : Option String
  complexity_level : Option String
  deriving DecidableEq, Repr

/-- The frontend `if/elif` chain of `_extract_technology_stack_from_analysis`
    over the lowered technology-stack text. -/
def extractFrontend (t : String) : String :=
  let has := pyContains t
  if has "web3" || has "dapp" then "web3-react"
  else if has "ethers" then "ethers-react"
  else if has "angular" then "angular"
  else if has "vue" then "vue"
  else if has "svelte" then "svelte"
  else if has "nextjs" || has "next.js" then "nextjs"
  else if has "flutter" then "flutter"
  else if has "react native" || has "react-native" then "react-native"
  else if has "react" then
    (if ["ethereum", "blockchain", "web3", "smart contract", "metamask"].any has
     then "web3-react" else "react")
  else if has "ios" then "native-ios"
  else if has "android" then "native-android"
  else "react"

/-- The backend `if/elif` chain. -/
def extractBackend (t : String) : String :=
  let has := pyContains t
  if has "ethereum" || has "solidity" then "ethereum"
  else if has "solana" then "solana"
  else if has "polygon" then "polygon"
  else if has "hyperledger" then "hyperledger"
  else if has "cardano" then "cardano"
  else if has "polkadot" then "polkadot"
  else if has "nodejs" || has "node.js" then "nodejs"
  else if has "java" then "java"
  else if has ".net" || has "c#" then "csharp"
  else if has "php" then "php"
  else if has "ruby" then "ruby"
  else if has "go" then "go"
  else "python"

/-- The database `if/elif` chain. -/
def extractDatabase (t : String) : String :=
  let has := pyContains t
  if has "ipfs" then "ipfs"
  else if has "arweave" then "arweave"
  else if has "filecoin" then "filecoin"
  else if has "on-chain" || (has "blockchain" && has "storage") then "blockchain-native"
  else if has "mongodb" then "mongodb"
  else if has "mysql" then "mysql"
  else if has "sql server" then "sql-server"
  else if has "oracle" then "oracle"
  else if has "redis" then "redis"
  else if has "dynamodb" then "dynamodb"
  else "postgresql"

/-- The cloud `if/elif` chain. -/
def extractCloud (t : String) : String :=
  let has := pyContains t
  if has "alchemy" then "alchemy"
  else if has "infura" then "infura"
  else if has "quicknode" then "quicknode"
  else if has "chainlink" then "chainlink"
  else if has "pinata" then "pinata"
  else if has "azure" then "azure"
  else if has "gcp" || has "google cloud" then "gcp"
  else if has "digitalocean" then "digitalocean"
  else if has "heroku" then "heroku"
  else if has "vercel" then "vercel"
  else "aws"

/-- The application-type `if/elif` chain. -/
def extractAppType (t : String) : String :=
  let has := pyContains t
  if has "mobile" then (if has "web" then "both" else "mobile")
  else if has "desktop" then "desktop"
  else if has "dapp" || has "web3" then "dapp"
  else "web"

/-- `_extract_technology_stack_from_analysis(analysis)`: keyword scan of the
    analysis's technology-stack text over the default stack (the defaults
    remain when the text is `None`/empty — Python's falsiness test). -/
def extract_technology_stack_from_analysis (analysis : AnalysisRec) : TechStack :=
  match analysis.technology_stack with
  | none => defaultTechStack
  | some raw =>
    if raw = "" then defaultTechStack
    else
      let t := pyLower raw
      { frontend := extractFrontend t, backend := extractBackend t,
        database := extractDatabase t, cloud := extractCloud t,
        application_type := extractAppType t }

/-! ## Offline fallback breakdown (`_create_fallback_task_breakdown`) -/

/-- `frontend_configs.get(key, frontend_configs['react'])`. -/
def frontend_configs (key : String) : String × String :=
  if key = "react" then ("React.js", "npm install, Create React App, React Router, Redux/Context API, Material-UI/Styled Components")
  else if key = "angular" then ("Angular", "Angular CLI, TypeScript, Angular Material, RxJS, NgRx")
  else if key = "vue" then ("Vue.js", "Vue CLI, Vuex/Pinia, Vue Router, Vuetify/Quasar")
  else if key = "flutter" then ("Flutter", "Flutter SDK, Dart, Provider/Bloc, Material Design")
  else if key = "react-native" then ("React Native", "React Native CLI, Metro bundler, React Navigation")
  else if key = "nextjs" then ("Next.js", "Next.js framework, Static generation, Server-side rendering")
  else ("React.js", "npm install, Create React App, React Router, Redux/Context API, Material-UI/Styled Components")

/-- `backend_configs.get(key, backend_configs['python'])`. -/
def backend_configs (key : String) : String × String :=
  if key = "python" then ("Python/FastAPI", "FastAPI framework, Pydantic, SQLAlchemy, Alembic, pytest")
  else if key = "nodejs" then ("Node.js/Express", "Express.js, TypeScript, Prisma/TypeORM, Jest")
  else if key = "java" then ("Java/Spring", "Spring Boot, Spring Security, JPA/Hibernate, Maven")
  else if key = "ethereum" then ("Ethereum/Solidity", "Hardhat, OpenZeppelin, Web3.js, Smart contracts")
  else if key = "solana" then ("Solana/Rust", "Anchor framework, Solana CLI, Token programs")
  else if key = "csharp" then (".NET Core", "ASP.NET Core, Entity Framework, Identity")
  else ("Python/FastAPI", "FastAPI framework, Pydantic, SQLAlchemy, Alembic, pytest")

/-- `database_configs.get(key, database_configs['postgresql'])`. -/
def database_configs (key : String) : String × String :=
  if key = "postgresql" then ("PostgreSQL", "Relational database, ACID compliance, Advanced querying")
  else if key = "mongodb" then ("MongoDB", "Document database, Aggregation pipelines, GridFS")
  else if key = "mysql" then ("MySQL", "Relational database, Stored procedures, Triggers")
  else if key = "ipfs" then ("IPFS", "Distributed storage, Content addressing, Pinning")
  else if key = "blockchain-native" then ("Blockchain Storage", "On-chain storage, Gas optimization")
  else ("PostgreSQL", "Relational database, ACID compliance, Advanced querying")

/-- `_create_fallback_task_breakdown(technology_stack)`: the deterministic
    technology-specific breakdown text substituted when AI output is missing
    or rejected. -/
def create_fallback_task_breakdown (technology_stack : TechStack) : String :=
  let cloud := pyUpper technology_stack.cloud
  let fc := frontend_configs technology_stack.frontend
  let bc := backend_configs technology_stack.backend
  let dc := database_configs technology_stack.database
  let frontend_name := fc.1
  let frontend_tools := fc.2
  let backend_name := bc.1
  let backend_tools := bc.2
  let database_name := dc.1
  let database_tools := dc.2
  "**TASK BREAKDOWN:**

**Module 1: Project Setup & " ++ backend_name ++ " Environment Configuration**
Task 1.1: " ++ backend_name ++ " Development Environment Setup
- Description: Set up " ++ backend_name ++ " development environment, package management, and project structure with technology-specific configurations
- Estimated Hours: 16
- Priority: High
- Subtasks:
  * Initialize " ++ backend_name ++ " project with " ++ splitCommaHead backend_tools ++ " - 4 hours - High
  * Configure package management and dependency resolution - 4 hours - High
  * Set up development tools and IDE configuration - 4 hours - Medium
  * Configure environment variables and configuration management - 4 hours - Medium

Task 1.2: " ++ frontend_name ++ " Frontend Environment Setup  
- Description: Configure " ++ frontend_name ++ " development environment with build tools, linting, and testing framework
- Estimated Hours: 14
- Priority: High
- Subtasks:
  * Initialize " ++ frontend_name ++ " project with " ++ splitCommaHead frontend_tools ++ " - 4 hours - High
  * Configure build system and bundling tools - 4 hours - High
  * Set up linting, formatting, and code quality tools - 3 hours - Medium
  * Configure testing framework and development scripts - 3 hours - Medium

Task 1.3: " ++ database_name ++ " Database Environment Setup
- Description: Configure " ++ database_name ++ " database environment, connection pooling, and migration system
- Estimated Hours: 12
- Priority: High
- Subtasks:
  * Install and configure " ++ database_name ++ " database server - 4 hours - High
  * Set up database connection pooling and optimization - 4 hours - Medium
  * Configure migration system and version control - 4 hours - Medium

Task 1.4: " ++ cloud ++ " Cloud Infrastructure Planning
- Description: Design " ++ cloud ++ " cloud infrastructure, resource planning, and deployment strategy
- Estimated Hours: 18
- Priority: Medium
- Subtasks:
  * " ++ cloud ++ " account setup and resource planning - 6 hours - Medium
  * Infrastructure as Code (IaC) configuration - 8 hours - Medium
  * CI/CD pipeline design and implementation - 4 hours - Medium

**Module 2: Authentication & Security Implementation**
Task 2.1: User Authentication System
- Description: Implement secure user registration, login, password management, and session handling mechanisms
- Estimated Hours: 24
- Priority: High
- Subtasks:
  * User registration and email verification system - 8 hours - High
  * Secure login and password management - 8 hours - High
  * Session management and token-based authentication - 8 hours - High

Task 2.2: Authorization & Access Control
- Description: Implement role-based access control, permissions system, and secure API endpoints
- Estimated Hours: 18
- Priority: High
- Subtasks:
  * Role-based access control implementation - 8 hours - High
  * Permission system and middleware development - 6 hours - High
  * API security and endpoint protection - 4 hours - Medium

Task 2.3: Security Hardening
- Description: Implement security best practices, encryption, input validation, and vulnerability protection
- Estimated Hours: 16
- Priority: Medium
- Subtasks:
  * Data encryption and secure communication protocols - 6 hours - High
  * Input validation and sanitization systems - 5 hours - Medium
  * Security testing and vulnerability assessment - 5 hours - Medium

**Module 3: Database Design & Implementation**
Task 3.1: Database Schema Development
- Description: Design and implement comprehensive database schema with relationships, indexes, and optimization
- Estimated Hours: 20
- Priority: High
- Subtasks:
  * Entity relationship design and normalization - 8 hours - High
  * Database schema implementation and migration scripts - 8 hours - High
  * Index optimization and performance tuning - 4 hours - Medium

Task 3.2: Data Access Layer
- Description: Implement data access patterns, ORM configuration, and database abstraction layers
- Estimated Hours: 16
- Priority: High
- Subtasks:
  * ORM setup and model configuration - 6 hours - High
  * Repository pattern and data access implementation - 6 hours - High
  * Database connection pooling and optimization - 4 hours - Medium

Task 3.3: Data Migration & Backup
- Description: Implement data migration tools, backup strategies, and database maintenance procedures
- Estimated Hours: 12
- Priority: Medium
- Subtasks:
  * Data migration scripts and version control - 5 hours - Medium
  * Automated backup and recovery procedures - 4 hours - Medium
  * Database monitoring and maintenance tools - 3 hours - Low

**Module 4: Frontend User Interface Development**
Task 4.1: Core UI Components
- Description: Develop reusable UI components, design system, and responsive layout framework
- Estimated Hours: 28
- Priority: High
- Subtasks:
  * Component library and design system development - 10 hours - High
  * Responsive layout and grid system implementation - 8 hours - High
  * Navigation and routing system development - 10 hours - High

Task 4.2: User Interface Implementation
- Description: Implement main application screens, forms, and interactive elements with user experience optimization
- Estimated Hours: 32
- Priority: High
- Subtasks:
  * Main dashboard and navigation interfaces - 12 hours - High
  * Forms and data input interfaces - 10 hours - High
  * Interactive features and user feedback systems - 10 hours - Medium

Task 4.3: Frontend State Management
- Description: Implement state management, data synchronization, and client-side caching mechanisms
- Estimated Hours: 20
- Priority: Medium
- Subtasks:
  * Global state management implementation - 8 hours - High
  * Data synchronization and real-time updates - 8 hours - Medium
  * Client-side caching and optimization - 4 hours - Medium

**Module 5: Backend API Development**
Task 5.1: Core API Framework
- Description: Develop RESTful API structure, middleware, error handling, and documentation framework
- Estimated Hours: 24
- Priority: High
- Subtasks:
  * API framework setup and routing configuration - 8 hours - High
  * Middleware development and error handling - 8 hours - High
  * API documentation and testing framework - 8 hours - Medium

Task 5.2: Business Logic Implementation
- Description: Implement core business logic, data validation, and service layer architecture
- Estimated Hours: 36
- Priority: High
- Subtasks:
  * Core business logic and service implementation - 16 hours - High
  * Data validation and business rule enforcement - 10 hours - High
  * Service layer architecture and dependency injection - 10 hours - Medium

Task 5.3: API Integration & Third-party Services
- Description: Integrate external APIs, payment processing, and third-party service connections
- Estimated Hours: 20
- Priority: Medium
- Subtasks:
  * External API integration and data mapping - 8 hours - Medium
  * Payment processing and financial transaction handling - 8 hours - High
  * Third-party service authentication and error handling - 4 hours - Medium

**Module 6: Integration & Data Management**
Task 6.1: System Integration
- Description: Implement frontend-backend integration, real-time communication, and data synchronization
- Estimated Hours: 18
- Priority: High
- Subtasks:
  * Frontend-backend API integration - 8 hours - High
  * Real-time communication and WebSocket implementation - 6 hours - Medium
  * Data synchronization and conflict resolution - 4 hours - Medium

Task 6.2: Data Processing & Analytics
- Description: Implement data processing pipelines, reporting systems, and analytics functionality
- Estimated Hours: 24
- Priority: Medium
- Subtasks:
  * Data processing and transformation pipelines - 10 hours - Medium
  * Reporting system and dashboard analytics - 10 hours - Medium
  * Performance monitoring and data insights - 4 hours - Low

Task 6.3: File Management & Storage
- Description: Implement file upload, storage management, and content delivery systems
- Estimated Hours: 16
- Priority: Medium
- Subtasks:
  * File upload and validation systems - 6 hours - Medium
  * Cloud storage integration and management - 6 hours - Medium
  * Content delivery and optimization - 4 hours - Low

**Module 7: Testing & Quality Assurance**
Task 7.1: Automated Testing Implementation
- Description: Develop comprehensive testing suite including unit tests, integration tests, and end-to-end testing
- Estimated Hours: 28
- Priority: High
- Subtasks:
  * Unit testing framework and test case development - 12 hours - High
  * Integration testing and API test automation - 10 hours - High
  * End-to-end testing and user journey validation - 6 hours - Medium

Task 7.2: Code Quality & Performance Testing
- Description: Implement code quality checks, performance testing, and optimization procedures
- Estimated Hours: 20
- Priority: Medium
- Subtasks:
  * Code quality analysis and linting automation - 6 hours - Medium
  * Performance testing and load testing implementation - 10 hours - Medium
  * Security testing and vulnerability scanning - 4 hours - High

Task 7.3: Bug Tracking & Quality Assurance
- Description: Establish bug tracking, quality assurance processes, and user acceptance testing procedures
- Estimated Hours: 16
- Priority: Medium
- Subtasks:
  * Bug tracking and issue management system setup - 5 hours - Medium
  * Quality assurance process and testing protocols - 6 hours - Medium
  * User acceptance testing and feedback integration - 5 hours - Low

**Module 8: Deployment & Production Setup**
Task 8.1: Production Environment Setup
- Description: Configure production infrastructure, deployment pipelines, and monitoring systems
- Estimated Hours: 24
- Priority: High
- Subtasks:
  * Production server configuration and optimization - 10 hours - High
  * Deployment automation and CI/CD pipeline setup - 8 hours - High
  * Monitoring and logging system implementation - 6 hours - Medium

Task 8.2: Go-Live & Launch Preparation
- Description: Execute production deployment, perform final testing, and prepare launch procedures
- Estimated Hours: 16
- Priority: High
- Subtasks:
  * Production deployment and system validation - 8 hours - High
  * Final testing and performance verification - 5 hours - High
  * Launch preparation and rollback procedures - 3 hours - Medium

Task 8.3: Post-Launch Support & Maintenance
- Description: Establish maintenance procedures, support systems, and continuous improvement processes
- Estimated Hours: 12
- Priority: Low
- Subtasks:
  * Support documentation and maintenance procedures - 4 hours - Medium
  * Performance monitoring and optimization setup - 4 hours - Medium
  * Continuous improvement and feedback systems - 4 hours - Low"

/-! ## Regex scanners for the breakdown patterns

The source counts and extracts structure with `re` patterns.  Each pattern is
implemented here as a dedicated scanner.  For every construct used, maximal
munch is exact except where a quantifier's character class overlaps what
follows; those places get an explicit backtracking loop (see `btCapture`). -/

/-- Case-insensitive match of a literal (the literal given lower-case);
    returns the rest on success.  Implements `re.IGNORECASE` literals. -/
def matchLitCi : List Char → List Char → Option (List Char)
  | [], s => some s
  | _ :: _, [] => none
  | a :: as, b :: bs => if a == lowerC b then matchLitCi as bs else none

/-- One attempt of Python `\s+([^X]+)Y` at the current position, consuming
    exactly `k` whitespace characters: the capture is the maximal run of
    characters other than `stop`, which must be non-empty and followed by the
    literal `lit`.  Returns (capture, rest after `lit`). -/
def btTry (stop : Char) (lit : List Char) (r : List Char) (k : Nat) :
    Option (List Char × List Char) :=
  let rest := r.drop k
  let seg := rest.takeWhile (fun c => !(c == stop))
  if seg.isEmpty then none
  else
    let r2 := rest.drop seg.length
    if isPre lit r2 then some (seg, r2.drop lit.length) else none

/-- Backtracking loop for `\s+([^X]+)Y` where the whitespace of `\s+` may
    overlap `[^X]`: Python tries the longest whitespace run first and gives
    characters back one at a time.  `k` counts down from the maximal run. -/
def btDown (stop : Char) (lit : List Char) (r : List Char) : Nat → Option (List Char × List Char)
  | 0 => none
  | k + 1 =>
    match btTry stop lit r (k + 1) with
    | some res => some res
    | none => btDown stop lit r k

/-- Python `\s+([^stop]+)lit` with backtracking; the whitespace run must be
    non-empty. -/
def btCapture (stop : Char) (lit : List Char) (r : List Char) :
    Option (List Char × List Char) :=
  btDown stop lit r (r.takeWhile isPySpace).length

/-- Matcher for the density-gate module pattern `\*\*Module\s+\d+:`
    (`re.IGNORECASE`); returns the rest after the match.  `\s+` and `\d+` are
    followed by characters outside their classes, so maximal munch is exact. -/
def matchModuleHeader : List Char → Option (List Char)
  | '*' :: '*' :: rest => do
    let r1 ← matchLitCi "module".data rest
    let ws := r1.takeWhile isPySpace
    if ws.isEmpty then none
    else
      let r2 := r1.drop ws.length
      let ds := r2.takeWhile isDigitC
      if ds.isEmpty then none
      else
        match r2.drop ds.length with
        | ':' :: r3 => some r3
        | _ => none
  | _ => none

/-- Matcher for the density-gate task pattern `Task\s+[\d.]+`
    (`re.IGNORECASE`); returns the rest after the match. -/
def matchTaskHeader (s : List Char) : Option (List Char) := do
  let r1 ← matchLitCi "task".data s
  let ws := r1.takeWhile isPySpace
  if ws.isEmpty then none
  else
    let r2 := r1.drop ws.length
    let ds := r2.takeWhile (fun c => isDigitC c || c == '.')
    if ds.isEmpty then none else some (r2.drop ds.length)

/-- `len(re.findall(pattern, s))`: leftmost, non-overlapping scan.  Every
    pattern used consumes at least one character, so fuel `s.length + 1`
    suffices.  (Accumulator form, so the kernel can evaluate long inputs.) -/
def countMatchesGo (m : List Char → Option (List Char)) : Nat → Nat → List Char → Nat
  | acc, 0, _ => acc
  | acc, _ + 1, [] => acc
  | acc, fuel + 1, c :: t =>
    match m (c :: t) with
    | some rest => countMatchesGo m (acc + 1) fuel rest
    | none => countMatchesGo m acc fuel t

/-- `len(re.findall(pattern, s))` for one of the matchers above. -/
def countMatches (m : List Char → Option (List Char)) (s : String) : Nat :=
  countMatchesGo m 0 (lengthTR s.data + 1) s.data

/-- `len(re.findall(r'\*\*Module\s+\d+:', s, re.IGNORECASE))`. -/
def countModuleHeaders (s : String) : Nat := countMatches matchModuleHeader s

/-- `len(re.findall(r'Task\s+[\d.]+', s, re.IGNORECASE))`. -/
def countTaskHeaders (s : String) : Nat := countMatches matchTaskHeader s

/-- `_format_task_breakdown_response(ai_response)`: the density gate.  A falsy
    or short (stripped length < 100) response, or one with fewer than 3 module
    headers or fewer than 5 task headers, is replaced wholesale by the
    fallback breakdown built from the literal default stack; otherwise the
    response is returned stripped. -/
def format_task_breakdown_response (ai_response : String) : String :=
  if ai_response = "" ∨ (pyStrip ai_response).length < 100 then
    create_fallback_task_breakdown defaultTechStack
  else if countModuleHeaders ai_response < 3 ∨ countTaskHeaders ai_response < 5 then
    create_fallback_task_breakdown defaultTechStack
  else
    pyStrip ai_response

/-! ## Structured breakdown parser (`_parse_task_breakdown_text`,
`_parse_tasks_from_module_content`, `_parse_subtasks_from_text`) -/

/-- One parsed subtask dict (`_parse_subtasks_from_text` output item). -/
structure ParsedSub where
  name : String
  description : String
  hours : Nat
  priority : String
  deriving DecidableEq, Repr

/-- One parsed task dict (`_parse_tasks_from_module_content` output item). -/
structure ParsedTask where
  id : String
  name : String
  description : String
  hours : Nat
  priority : String
  subtasks : List ParsedSub
  deriving DecidableEq, Repr

/-- One parsed module dict (`_parse_task_breakdown_text` output item). -/
structure ParsedModule where
  number : Nat
  name : String
  tasks : List ParsedTask
  deriving DecidableEq, Repr

/-- `int()` of a digit run. -/
def natOfDigits (ds : List Char) : Nat :=
  ds.foldl (fun n c => n * 10 + (c.toNat - 48)) 0

/-- Matcher for the module pattern of `_parse_task_breakdown_text`,
    `\*\*Module\s+(\d+):\s+([^*]+)\*\*` (`re.IGNORECASE`): returns the module
    number, the raw name capture, and the rest after the closing `**`. -/
def matchModuleFull (s : List Char) : Option (Nat × List Char × List Char) :=
  match s with
  | '*' :: '*' :: rest => do
    let r1 ← matchLitCi "module".data rest
    let ws := r1.takeWhile isPySpace
    if ws.isEmpty then none
    else
      let r2 := r1.drop ws.length
      let ds := r2.takeWhile isDigitC
      if ds.isEmpty then none
      else
        match r2.drop ds.length with
        | ':' :: r3 => do
          let (nameC, r4) ← btCapture '*' ['*', '*'] r3
          some (natOfDigits ds, nameC, r4)
        | _ => none
  | _ => none

/-- `re.finditer` for the module pattern: list of
    (match start, match end, number, raw name), absolute positions. -/
def findModulesGo : Nat → Nat → List Char → List (Nat × Nat × Nat × List Char)
  | 0, _, _ => []
  | _ + 1, _, [] => []
  | fuel + 1, pos, c :: t =>
    match matchModuleFull (c :: t) with
    | some (num, nameC, rest) =>
      let consumed := (c :: t).length - rest.length
      (pos, pos + consumed, num, nameC) :: findModulesGo fuel (pos + consumed) rest
    | none => findModulesGo fuel (pos + 1) t

/-- The subtask-region group `((?:\s*\*[^\n]+\n?)*)` of the task pattern:
    consume greedy iterations, returning (captured text, rest). -/
def subRegionGo : Nat → List Char → (List Char × List Char)
  | 0, s => ([], s)
  | fuel + 1, s =>
    let ws := s.takeWhile isPySpace
    let r := s.drop ws.length
    match r with
    | '*' :: r2 =>
      let seg := r2.takeWhile (fun c => !(c == '\n'))
      if seg.isEmpty then ([], s)
      else
        let r3 := r2.drop seg.length
        match r3 with
        | '\n' :: r4 =>
          let (more, rest) := subRegionGo fuel r4
          (ws ++ '*' :: (seg ++ '\n' :: more), rest)
        | _ =>
          let (more, rest) := subRegionGo fuel r3
          (ws ++ '*' :: (seg ++ more), rest)
    | _ => ([], s)

/-- Python `[-\s]*` (maximal munch; always followed here by a letter, which is
    outside the class, so this is exact). -/
def dashWs (s : List Char) : List Char :=
  s.dropWhile (fun c => c == '-' || isPySpace c)

/-- Matcher for `\s+([^-]+)\s+-` of the subtask pattern, where both
    whitespace runs overlap `[^-]`.  Python semantics: the leading `\s+`
    keeps as much as it can, the capture runs to the first `-` and gives its
    (whitespace) last character back to the second `\s+`. -/
def matchDescDash (r : List Char) : Option (List Char × List Char) :=
  let m := (r.takeWhile isPySpace).length
  let pre := r.takeWhile (fun c => !(c == '-'))
  if pre.length = r.length then none
  else
    match pre.getLast? with
    | none => none
    | some lastC =>
      if !isPySpace lastC then none
      else
        let k := min m (pre.length - 2)
        if k = 0 then none
        else some ((r.drop k).take (pre.length - 1 - k), r.drop (pre.length + 1))

/-- Matcher for the subtask pattern of `_parse_subtasks_from_text`,
    `\*\s+([^:]+):\s+([^-]+)\s+-\s+(\d+)\s+hours\s+-\s+([^\n]+)`
    (`re.IGNORECASE`): returns the parsed subtask and the rest after the
    match. -/
def matchSubtaskLine (s : List Char) : Option (ParsedSub × List Char) :=
  match s with
  | '*' :: r0 => do
    let (nameC, r1) ← btCapture ':' [':'] r0
    let (descC, r2) ← matchDescDash r1
    let ws1 := r2.takeWhile isPySpace
    if ws1.isEmpty then none
    else
      let r3 := r2.drop ws1.length
      let ds := r3.takeWhile isDigitC
      if ds.isEmpty then none
      else
        let r4 := r3.drop ds.length
        let ws2 := r4.takeWhile isPySpace
        if ws2.isEmpty then none
        else do
          let r5 ← matchLitCi "hours".data (r4.drop ws2.length)
          let ws3 := r5.takeWhile isPySpace
          if ws3.isEmpty then none
          else
            match r5.drop ws3.length with
            | '-' :: r6 => do
              let (prioC, r7) ← btCapture '\n' [] r6
              some ({ name := ⟨stripL nameC⟩, description := ⟨stripL descC⟩,
                      hours := natOfDigits ds, priority := ⟨stripL prioC⟩ }, r7)
            | _ => none
  | _ => none

/-- `re.finditer` scan for subtask lines (leftmost, non-overlapping). -/
def findSubtaskLinesGo : Nat → List Char → List ParsedSub
  | 0, _ => []
  | _ + 1, [] => []
  | fuel + 1, c :: t =>
    match matchSubtaskLine (c :: t) with
    | some (sub, rest) => sub :: findSubtaskLinesGo fuel rest
    | none => findSubtaskLinesGo fuel t

/-- `_parse_subtasks_from_text(subtasks_text)`. -/
def parse_subtasks_from_text (subtasks_text : List Char) : List ParsedSub :=
  findSubtaskLinesGo (lengthTR subtasks_text + 1) subtasks_text

/-- Matcher for the task pattern of `_parse_tasks_from_module_content`,
    `Task\s+([\d.]+):\s+([^\n]+)\n[-\s]*Description:\s+([^\n]+)\n[-\s]*Estimated Hours:\s+(\d+)\n[-\s]*Priority:\s+([^\n]+)\n[-\s]*Subtasks:\s*((?:\s*\*[^\n]+\n?)*)`
    (`re.IGNORECASE | re.MULTILINE`): returns the parsed task and the rest. -/
def matchTaskBlock (s : List Char) : Option (ParsedTask × List Char) := do
  let r1 ← matchLitCi "task".data s
  let ws := r1.takeWhile isPySpace
  if ws.isEmpty then none
  else
    let r2 := r1.drop ws.length
    let ds := r2.takeWhile (fun c => isDigitC c || c == '.')
    if ds.isEmpty then none
    else
      match r2.drop ds.length with
      | ':' :: r3 => do
        let (nameC, r4) ← btCapture '\n' ['\n'] r3
        let r5 ← matchLitCi "description:".data (dashWs r4)
        let (descC, r6) ← btCapture '\n' ['\n'] r5
        let r7 ← matchLitCi "estimated hours:".data (dashWs r6)
        let hws := r7.takeWhile isPySpace
        if hws.isEmpty then none
        else
          let r8 := r7.drop hws.length
          let hds := r8.takeWhile isDigitC
          if hds.isEmpty then none
          else
            match r8.drop hds.length with
            | '\n' :: r9 => do
              let r10 ← matchLitCi "priority:".data (dashWs r9)
              let (prioC, r11) ← btCapture '\n' ['\n'] r10
              let r12 ← matchLitCi "subtasks:".data (dashWs r11)
              let r13 := r12.drop (r12.takeWhile isPySpace).length
              let (subText, rest) := subRegionGo (lengthTR r13 + 1) r13
              some ({ id := ⟨ds⟩, name := ⟨stripL nameC⟩,
                      description := ⟨stripL descC⟩, hours := natOfDigits hds,
                      priority := ⟨stripL prioC⟩,
                      subtasks := parse_subtasks_from_text subText }, rest)
            | _ => none
      | _ => none

/-- `re.finditer` scan for task blocks (leftmost, non-overlapping). -/
def findTaskBlocksGo : Nat → List Char → List ParsedTask
  | 0, _ => []
  | _ + 1, [] => []
  | fuel + 1, c :: t =>
    match matchTaskBlock (c :: t) with
    | some (task, rest) => task :: findTaskBlocksGo fuel rest
    | none => findTaskBlocksGo fuel t

/-- `_parse_tasks_from_module_content(module_content)`. -/
def parse_tasks_from_module_content (module_content : List Char) : List ParsedTask :=
  findTaskBlocksGo (lengthTR module_content + 1) module_content

/-- Slice each module's content (from its match end to the next match start,
    the last running to end-of-text) and parse its tasks. -/
def buildModules (l : List Char) : List (Nat × Nat × Nat × List Char) → List ParsedModule
  | [] => []
  | (_, e, num, nameC) :: rest =>
    let stop := match rest with
      | [] => l.length
      | (s2, _, _, _) :: _ => s2
    { number := num, name := ⟨stripL nameC⟩,
      tasks := parse_tasks_from_module_content ((l.drop e).take (stop - e)) }
      :: buildModules l rest

/-- `_parse_task_breakdown_text(text)`. -/
def parse_task_breakdown_text (text : String) : List ParsedModule :=
  buildModules text.data (findModulesGo (lengthTR text.data + 1) 0 text.data)

/-! ## Persisted rows (`AnalysisTask` / `AnalysisSubtask`) and
`_parse_and_store_tasks` -/

/-- An `analysis_subtasks` row (the columns the core reads/writes).
    `created_at` is carried as its already-formatted date string. -/
structure StoredSub where
  title : String
  description : Option String
  priority : Option String
  estimated_hours : Option ℚ
  estimated_cost : Option ℚ
  order_index : Nat
  created_at : Option String
  deriving DecidableEq, Repr

/-- An `analysis_tasks` row together with its (order-indexed) subtask rows. -/
structure StoredTask where
  title : String
  description : Option String
  category : Option String
  module : Option String
  priority : String
  estimated_hours : Option ℚ
  estimated_cost : Option ℚ
  complexity : Option String
  order_index : Nat
  created_at : Option String
  subtasks : List StoredSub
  deriving DecidableEq, Repr

/-- The subtask insertion loop of `_parse_and_store_tasks`: 1-based
    `subtask_order`. -/
def storeSubsGo (k : Nat) : List ParsedSub → List StoredSub
  | [] => []
  | s :: rest =>
    { title := s.name, description := some s.description,
      priority := some s.priority, estimated_hours := some (s.hours : ℚ),
      estimated_cost := none, order_index := k, created_at := none }
      :: storeSubsGo (k + 1) rest

/-- The row built for one parsed task at `task_order = k`. -/
def storedOfParsed (moduleName : String) (k : Nat) (t : ParsedTask) : StoredTask :=
  { title := t.name, description := some t.description, category := none,
    module := some moduleName, priority := t.priority,
    estimated_hours := some (t.hours : ℚ), estimated_cost := none,
    complexity := none, order_index := k, created_at := none,
    subtasks := storeSubsGo 1 t.subtasks }

/-- The per-module task insertion loop (running `task_order`). -/
def storeTasksGo (moduleName : String) (k : Nat) : List ParsedTask → List StoredTask
  | [] => []
  | t :: rest => storedOfParsed moduleName k t :: storeTasksGo moduleName (k + 1) rest

/-- The outer module loop of `_parse_and_store_tasks`: `task_order` continues
    across modules. -/
def storeModulesGo (k : Nat) : List ParsedModule → List StoredTask
  | [] => []
  | m :: rest => storeTasksGo m.name k m.tasks ++ storeModulesGo (k + m.tasks.length) rest

/-- All rows `_parse_and_store_tasks` adds for a parsed breakdown
    (`task_order` starts at 1). -/
def storeModules (modules : List ParsedModule) : List StoredTask :=
  storeModulesGo 1 modules

/-- The flat stored task list produced by parsing a breakdown text and
    storing it (`_parse_and_store_tasks` over `_parse_task_breakdown_text`). -/
def storedTasksOfText (text : String) : List StoredTask :=
  storeModules (parse_task_breakdown_text text)

/-- Number of `db.add` operations `_parse_and_store_tasks` performs (tasks
    plus subtasks); all of them sit in one uncommitted transaction until the
    final `db.commit()`. -/
def insertOpsCount (modules : List ParsedModule) : Nat :=
  (modules.map (fun m => m.tasks.length + (m.tasks.map (fun t => t.subtasks.length)).sum)).sum

/-! ## `_format_existing_tasks_as_breakdown` -/

/-- Python rendering of an optional text column inside an f-string
    (`None` prints as `None`). -/
def showOptStr : Option String → String
  | none => "None"
  | some s => s

/-- Python `repr`/`str` of a `Float` column value inside an f-string, for the
    integral values this system writes (`16` → `16.0`).  Non-integral floats
    never arise from `_parse_and_store_tasks` (hours are parsed with `\d+`);
    for them a plain rational rendering stands in. -/
def showOptFloat : Option ℚ → String
  | none => "None"
  | some q => if q.den = 1 then toString q.num ++ ".0" else toString q

/-- One subtask line of `_format_existing_tasks_as_breakdown`. -/
def existingSubLine (s : StoredSub) : String :=
  "  * " ++ s.title ++ ": " ++ showOptStr s.description ++ " - "
    ++ showOptFloat s.estimated_hours ++ " hours - " ++ showOptStr s.priority ++ "\n"

/-- One task block of `_format_existing_tasks_as_breakdown` (module header
    emitted when the title starts with `Module` and differs from the running
    module; then the task lines; then the subtask lines if any). -/
def existingTaskBlock (currentModule : String) (t : StoredTask) : String × String :=
  let header :=
    if isPre "Module".data t.title.data ∧ currentModule ≠ t.title
    then ("**" ++ t.title ++ "**\n") else ""
  let newModule :=
    if isPre "Module".data t.title.data ∧ currentModule ≠ t.title then t.title else currentModule
  let block :=
    header
    ++ "Task " ++ toString t.order_index ++ ": " ++ t.title ++ "\n"
    ++ "- Description: " ++ showOptStr t.description ++ "\n"
    ++ "- Estimated Hours: " ++ showOptFloat t.estimated_hours ++ "\n"
    ++ "- Priority: " ++ t.priority ++ "\n"
    ++ (if t.subtasks ≠ [] then
          "- Subtasks:\n" ++ String.join (t.subtasks.map existingSubLine)
        else "")
    ++ "\n"
  (block, newModule)

/-- The task loop of `_format_existing_tasks_as_breakdown`. -/
def existingTasksGo (currentModule : String) : List StoredTask → String
  | [] => ""
  | t :: rest =>
    let (block, newModule) := existingTaskBlock currentModule t
    block ++ existingTasksGo newModule rest

/-- `_format_existing_tasks_as_breakdown(db, tasks)`. -/
def format_existing_tasks_as_breakdown (tasks : List StoredTask) : String :=
  if tasks = [] then create_fallback_task_breakdown defaultTechStack
  else pyStrip ("**TASK BREAKDOWN:**\n\n" ++ existingTasksGo "" tasks)

/-! ## Breakdown orchestration (`generate_task_breakdown`,
`_generate_detailed_task_breakdown`) with its database effect -/

/-- What `generate_task_breakdown` can raise to its caller.  The catch-all
    handler runs `return self._create_fallback_task_breakdown()` — a call
    missing the required `technology_stack` argument — so every exception
    caught there (including the internal "RFP not found" / "No analysis
    found" ones) re-surfaces as a `TypeError` raised from the handler. -/
inductive BreakdownError where
  | typeError
  deriving DecidableEq, Repr

/-- The service loop of `_generate_detailed_task_breakdown`: first provider
    outcome that is truthy and longer than 500 characters. -/
def firstLong : List (Option String) → Option String
  | [] => none
  | none :: rest => firstLong rest
  | some r :: rest => if 500 < r.length then some r else firstLong rest

/-- `_generate_detailed_task_breakdown`: first usable provider output runs
    through the density gate; with no usable output the technology-specific
    fallback is returned directly. -/
def generate_detailed_task_breakdown (providers : List (Option String))
    (stack : TechStack) : String :=
  match firstLong providers with
  | some r => format_task_breakdown_response r
  | none => create_fallback_task_breakdown stack

/-- `generate_task_breakdown(db, rfp_id, force_regenerate)`.

    State model: `old` is the committed task set of the analysis before the
    call; the returned list is the committed task set after it.  `failAt`
    models the bulk insertion of `_parse_and_store_tasks` raising at its
    `failAt`-th `db.add`/`db.flush` (`none`: no failure); that method catches
    the exception and rolls the uncommitted adds back.  The `force` delete is
    committed on its own (`db.commit()` directly after the `delete()`)
    *before* generation and insertion begin. -/
def generate_task_breakdown (rfp : Option Unit) (analysis : Option AnalysisRec)
    (old : List StoredTask) (force : Bool) (providers : List (Option String))
    (failAt : Option Nat) : Except BreakdownError String × List StoredTask :=
  match rfp with
  | none => (.error .typeError, old)
  | some _ =>
    match analysis with
    | none => (.error .typeError, old)
    | some a =>
      if old ≠ [] ∧ force = false then
        (.ok (format_existing_tasks_as_breakdown old), old)
      else
        let afterClear := if force then [] else old
        let stack := extract_technology_stack_from_analysis a
        let breakdown := generate_detailed_task_breakdown providers stack
        let modules := parse_task_breakdown_text breakdown
        let inserted :=
          match failAt with
          | none => afterClear ++ storeModules modules
          | some k =>
            if k < insertOpsCount modules then afterClear
            else afterClear ++ storeModules modules
        (.ok breakdown, inserted)

/-! ## Excel export (`export_tasks_to_excel`) -/

/-- One data row of the detail sheet (`excel_data` items). -/
structure ExcelRow where
  module : String
  taskType : String
  taskId : String
  taskName : String
  description : String
  priority : String
  estimatedHours : ℚ
  estimatedCost : ℚ
  complexity : String
  category : String
  parentTask : String
  createdDate : String
  deriving DecidableEq, Repr

/-- The `task_row` dict built for a main task. -/
def taskRow (t : StoredTask) : ExcelRow :=
  { module := t.module.getD "General", taskType := "Main Task",
    taskId := toString t.order_index, taskName := t.title,
    description := t.description.getD "", priority := t.priority,
    estimatedHours := t.estimated_hours.getD 0,
    estimatedCost := t.estimated_cost.getD 0,
    complexity := t.complexity.getD "Medium",
    category := t.category.getD "Development", parentTask := "",
    createdDate := t.created_at.getD "" }

/-- The `subtask_row` dict built for a subtask of `t`. -/
def subRow (t : StoredTask) (s : StoredSub) : ExcelRow :=
  { module := t.module.getD "General", taskType := "Subtask",
    taskId := toString t.order_index ++ "." ++ toString s.order_index,
    taskName := s.title, description := s.description.getD "",
    priority := s.priority.getD "Medium",
    estimatedHours := s.estimated_hours.getD 0,
    estimatedCost := s.estimated_cost.getD 0,
    complexity := "Standard", category := "Development",
    parentTask := t.title, createdDate := s.created_at.getD "" }

/-- The `excel_data` list of the detail sheet: one row per task, each
    immediately followed by its subtask rows (tasks and subtasks arriving in
    their `ORDER BY order_index` order). -/
def excel_data : List StoredTask → List ExcelRow
  | [] => []
  | t :: ts => taskRow t :: t.subtasks.map (subRow t) ++ excel_data ts

/-- The summary sheet's `total_hours` accumulation (also the detail header's
    `Total Hours` cell): a loop over the *tasks* only. -/
def export_total_hours (tasks : List StoredTask) : ℚ :=
  (tasks.map (fun t => t.estimated_hours.getD 0)).sum

/-- The summary sheet's `total_cost` accumulation: tasks only. -/
def export_total_cost (tasks : List StoredTask) : ℚ :=
  (tasks.map (fun t => t.estimated_cost.getD 0)).sum

/-! ## Lemmas about the string utilities -/

/-- Python `hay.count(needle)` (non-overlapping, left to right). -/
def countSubGo (n : List Char) : Nat → Nat → List Char → Nat
  | acc, 0, _ => acc
  | acc, _ + 1, [] => if isPre n [] then acc + 1 else acc
  | acc, fuel + 1, c :: t =>
    if isPre n (c :: t) then countSubGo n (acc + 1) fuel ((c :: t).drop n.length)
    else countSubGo n acc fuel t

/-- Python `hay.count(needle)` for a non-empty needle. -/
def pyCount (hay needle : String) : Nat :=
  countSubGo needle.data 0 (lengthTR hay.data + 1) hay.data

/-- First character exists and is not whitespace. -/
def firstNonWs : List Char → Bool
  | [] => false
  | c :: _ => !isPySpace c

/-- Last character exists and is not whitespace. -/
def lastNonWs : List Char → Bool
  | [] => false
  | [c] => !isPySpace c
  | _ :: c :: t => lastNonWs (c :: t)

theorem isPre_iff {n h : List Char} : isPre n h = true ↔ ∃ b, h = n ++ b := by
  induction n generalizing h with
  | nil => simp [isPre]
  | cons a as ih =>
    cases h with
    | nil => simp [isPre]
    | cons b bs =>
      simp only [isPre, Bool.and_eq_true, beq_iff_eq, ih, List.cons_append,
        List.cons.injEq]
      constructor
      · rintro ⟨rfl, c, rfl⟩; exact ⟨c, rfl, rfl⟩
      · rintro ⟨c, rfl, rfl⟩; exact ⟨rfl, c, rfl⟩

theorem hasSub_iff {n h : List Char} : hasSub n h = true ↔ ∃ a b, h = a ++ n ++ b := by
  induction h with
  | nil =>
    constructor
    · intro hh
      cases n with
      | nil => exact ⟨[], [], rfl⟩
      | cons n0 ns => simp [hasSub, isPre] at hh
    · rintro ⟨a, b, hab⟩
      have h1 := List.append_eq_nil.mp hab.symm
      have h2 := List.append_eq_nil.mp h1.1
      simp [hasSub, h2.2, isPre]
  | cons c t ih =>
    simp only [hasSub, Bool.or_eq_true, isPre_iff, ih]
    constructor
    · rintro (⟨b, hb⟩ | ⟨a, b, hab⟩)
      · exact ⟨[], b, by simpa using hb⟩
      · exact ⟨c :: a, b, by simp [hab]⟩
    · rintro ⟨a, b, hab⟩
      cases a with
      | nil => exact Or.inl ⟨b, by simpa using hab⟩
      | cons a0 as =>
        have h2 : c = a0 ∧ t = as ++ (n ++ b) := by
          simpa [List.cons_append, List.append_assoc] using hab
        exact Or.inr ⟨as, b, by simpa [List.append_assoc] using h2.2⟩

theorem hasSub_append_right {n h h2 : List Char} (hh : hasSub n h = true) :
    hasSub n (h ++ h2) = true := by
  rcases hasSub_iff.mp hh with ⟨a, b, rfl⟩
  exact hasSub_iff.mpr ⟨a, b ++ h2, by simp⟩

theorem hasSub_append_left {n h h2 : List Char} (hh : hasSub n h = true) :
    hasSub n (h2 ++ h) = true := by
  rcases hasSub_iff.mp hh with ⟨a, b, rfl⟩
  exact hasSub_iff.mpr ⟨h2 ++ a, b, by simp⟩

theorem hasSub_dw {n l : List Char} (hn : firstNonWs n = true)
    (hl : hasSub n l = true) : hasSub n (dw l) = true := by
  induction l with
  | nil => simpa [dw] using hl
  | cons c t ih =>
    by_cases hc : isPySpace c = true
    · have hdw : dw (c :: t) = dw t := by simp [dw, List.dropWhile, hc]
      rw [hdw]
      have : hasSub n t = true := by
        rcases (Bool.or_eq_true _ _).mp (by simpa [hasSub] using hl) with hp | hs
        · exfalso
          rcases isPre_iff.mp hp with ⟨b, hb⟩
          cases n with
          | nil => simp [firstNonWs] at hn
          | cons n0 ns =>
            have hceq : c = n0 := by simpa using congrArg List.head? hb
            have hn0 : isPySpace n0 = false := by simpa [firstNonWs] using hn
            rw [← hceq, hc] at hn0
            simp at hn0
        · exact hs
      exact ih this
    · have : dw (c :: t) = c :: t := by
        simp [dw, List.dropWhile, hc]
      rw [this]; exact hl

theorem dtr_eq_nil_iff {l : List Char} : dtr l = [] ↔ l.all isPySpace = true := by
  induction l with
  | nil => simp [dtr]
  | cons c t ih =>
    by_cases h : dtr t = [] ∧ isPySpace c = true
    · simp [dtr, h, ih.mp h.1, h.2]
    · have : dtr (c :: t) = c :: dtr t := by simp [dtr, h]
      rw [this]
      simp only [List.all_cons, Bool.and_eq_true]
      constructor
      · intro hc; simp at hc
      · rintro ⟨hc, ht⟩; exact absurd ⟨ih.mpr ht, hc⟩ h

/-- `dtr` either kills the whole list (all whitespace) or keeps the head. -/
theorem dtr_cons (c : Char) (t : List Char) :
    dtr (c :: t) = [] ∨ dtr (c :: t) = c :: dtr t := by
  by_cases h : dtr t = [] ∧ isPySpace c = true
  · exact Or.inl (by simp [dtr, h])
  · exact Or.inr (by simp [dtr, h])

theorem hasSub_mem {n z : List Char} (h : hasSub n z = true) {c : Char}
    (hc : c ∈ n) : c ∈ z := by
  rcases hasSub_iff.mp h with ⟨a, b, rfl⟩
  simp [hc]

theorem lastNonWs_exists_mem {n : List Char} (h : lastNonWs n = true) :
    ∃ c ∈ n, isPySpace c = false := by
  induction n with
  | nil => simp [lastNonWs] at h
  | cons c t ih =>
    cases t with
    | nil =>
      refine ⟨c, by simp, ?_⟩
      simpa [lastNonWs] using h
    | cons d u =>
      rcases ih (by simpa [lastNonWs] using h) with ⟨e, he, hws⟩
      exact ⟨e, by simp [he], hws⟩

theorem isPre_dtr {n z : List Char} (hlast : lastNonWs n = true)
    (h : isPre n z = true) : isPre n (dtr z) = true := by
  induction n generalizing z with
  | nil => simp [isPre]
  | cons c t ih =>
    cases z with
    | nil => simp [isPre] at h
    | cons z0 zs =>
      have hc : c = z0 ∧ isPre t zs = true := by
        simpa [isPre, Bool.and_eq_true] using h
      have hnil : dtr (z0 :: zs) ≠ [] := by
        intro hn
        have hall := dtr_eq_nil_iff.mp hn
        rcases lastNonWs_exists_mem hlast with ⟨e, he, hws⟩
        have hm : e ∈ z0 :: zs := by
          rcases isPre_iff.mp h with ⟨b, hb⟩
          rw [hb]
          exact List.mem_append_left b he
        have := List.all_eq_true.mp hall e hm
        simp [hws] at this
      rcases dtr_cons z0 zs with h0 | h0
      · exact absurd h0 hnil
      · rw [h0]
        cases t with
        | nil => simp [isPre, hc.1]
        | cons d u =>
          have hlast' : lastNonWs (d :: u) = true := by
            simpa [lastNonWs] using hlast
          simp only [isPre, Bool.and_eq_true, beq_iff_eq]
          exact ⟨by simpa using hc.1, ih hlast' hc.2⟩

theorem hasSub_dtr {n z : List Char} (hlast : lastNonWs n = true)
    (h : hasSub n z = true) : hasSub n (dtr z) = true := by
  induction z with
  | nil => simpa [dtr] using h
  | cons c t ih =>
    rcases (Bool.or_eq_true _ _).mp (by simpa [hasSub] using h) with hp | hs
    · have hpre := isPre_dtr hlast hp
      cases hdtr : dtr (c :: t) with
      | nil =>
        rw [hdtr] at hpre
        cases n with
        | nil => simp [lastNonWs] at hlast
        | cons n0 ns => simp [isPre] at hpre
      | cons d u =>
        rw [hdtr] at hpre
        simp [hasSub, hpre]
    · have ht := ih hs
      rcases dtr_cons c t with h0 | h0
      · have hall : (c :: t).all isPySpace = true := dtr_eq_nil_iff.mp h0
        have htall : t.all isPySpace = true := by
          have := hall
          simp only [List.all_cons, Bool.and_eq_true] at this
          exact this.2
        have hdtrt : dtr t = [] := dtr_eq_nil_iff.mpr htall
        rw [hdtrt] at ht
        have hn : n = [] := by
          cases n with
          | nil => rfl
          | cons n0 ns => simp [hasSub, isPre] at ht
        rw [hn] at hlast
        simp [lastNonWs] at hlast
      · rw [h0]
        simp [hasSub, ht]

theorem dtr_idem (l : List Char) : dtr (dtr l) = dtr l := by
  induction l with
  | nil => simp [dtr]
  | cons c t ih =>
    rcases dtr_cons c t with h | h
    · rw [h]; simp [dtr]
    · have hne : ¬(dtr t = [] ∧ isPySpace c = true) := by
        intro hcontra
        have hx : dtr (c :: t) = [] := by simp [dtr, hcontra]
        rw [h] at hx
        simp at hx
      rw [h]
      show dtr (c :: dtr t) = c :: dtr t
      rw [dtr, ih]
      simp [hne]

theorem all_reverse' (l : List Char) (p : Char → Bool) : l.reverse.all p = l.all p := by
  induction l with
  | nil => rfl
  | cons c t ih =>
    rw [List.reverse_cons, List.all_append, List.all_cons]
    simp [ih, Bool.and_comm]

theorem dw_append_singleton (xs : List Char) (c : Char) :
    dw (xs ++ [c]) = if xs.all isPySpace then dw [c] else dw xs ++ [c] := by
  induction xs with
  | nil => simp
  | cons x t ih =>
    show dw ((x :: t) ++ [c]) = _
    rw [List.cons_append]
    by_cases hx : isPySpace x = true
    · have h1 : dw (x :: (t ++ [c])) = dw (t ++ [c]) := by
        simp [dw, List.dropWhile, hx]
      have h2 : dw (x :: t) = dw t := by simp [dw, List.dropWhile, hx]
      rw [h1, ih]
      simp [List.all_cons, hx, h2]
    · have h1 : dw (x :: (t ++ [c])) = x :: (t ++ [c]) := by
        simp [dw, List.dropWhile, hx]
      have h2 : dw (x :: t) = x :: t := by simp [dw, List.dropWhile, hx]
      rw [h1]
      simp [List.all_cons, hx, h2]

theorem dtr_eq_rev (l : List Char) : dtr l = (dw l.reverse).reverse := by
  induction l with
  | nil => simp [dtr, dw]
  | cons c t ih =>
    rw [List.reverse_cons, dw_append_singleton, all_reverse']
    by_cases hall : t.all isPySpace = true
    · have hdtr : dtr t = [] := dtr_eq_nil_iff.mpr hall
      by_cases hc : isPySpace c = true
      · simp [dtr, hdtr, hc, hall, dw, List.dropWhile]
      · simp [dtr, hdtr, hc, hall, dw, List.dropWhile]
    · have hdtr : dtr t ≠ [] := fun h => hall (dtr_eq_nil_iff.mp h)
      have : dtr (c :: t) = c :: dtr t := by simp [dtr, hdtr]
      rw [this, ih]
      simp [hall]

theorem stripL_eq (l : List Char) : stripL l = dtr (dw l) :=
  (dtr_eq_rev (dw l)).symm

theorem dw_head_not {l : List Char} {c : Char} {t : List Char}
    (h : dw l = c :: t) : isPySpace c = false := by
  induction l with
  | nil => simp [dw] at h
  | cons d u ih =>
    by_cases hd : isPySpace d = true
    · exact ih (by simpa [dw, List.dropWhile, hd] using h)
    · have : dw (d :: u) = d :: u := by simp [dw, List.dropWhile, hd]
      rw [this] at h
      cases h
      simpa using hd

theorem dw_eq_self_of_head {l : List Char}
    (h : ∀ c t, l = c :: t → isPySpace c = false) : dw l = l := by
  cases l with
  | nil => simp [dw]
  | cons c t => simp [dw, List.dropWhile, h c t rfl]

theorem strip_idem (l : List Char) : stripL (stripL l) = stripL l := by
  simp only [stripL_eq]
  have h1 : dw (dtr (dw l)) = dtr (dw l) := by
    apply dw_eq_self_of_head
    intro c t hct
    cases hdw : dw l with
    | nil => rw [hdw] at hct; simp [dtr] at hct
    | cons d u =>
      have hd : isPySpace d = false := dw_head_not hdw
      rw [hdw] at hct
      rcases dtr_cons d u with h0 | h0
      · rw [h0] at hct; exact absurd hct (by simp)
      · rw [h0] at hct
        cases hct
        assumption
  rw [h1, dtr_idem]

/-- A substring whose ends are non-whitespace survives `strip`. -/
theorem hasSub_strip {n l : List Char} (hfirst : firstNonWs n = true)
    (hlast : lastNonWs n = true) (h : hasSub n l = true) :
    hasSub n (stripL l) = true := by
  rw [stripL_eq]
  exact hasSub_dtr hlast (hasSub_dw hfirst h)

/-- `strip` only removes characters: substrings of the stripped text are
    substrings of the text. -/
theorem dtr_append_exists (z : List Char) : ∃ post, dtr z ++ post = z := by
  induction z with
  | nil => exact ⟨[], by simp [dtr]⟩
  | cons c t ih =>
    rcases dtr_cons c t with h0 | h0
    · exact ⟨c :: t, by simp [h0]⟩
    · rcases ih with ⟨post, hpost⟩
      exact ⟨post, by simp [h0, hpost]⟩

theorem hasSub_of_strip {n l : List Char} (h : hasSub n (stripL l) = true) :
    hasSub n l = true := by
  rw [stripL_eq] at h
  rcases hasSub_iff.mp h with ⟨a, b, hab⟩
  rcases dtr_append_exists (dw l) with ⟨post, hpost⟩
  have hpre : l.takeWhile isPySpace ++ dw l = l := by
    unfold dw
    exact List.takeWhile_append_dropWhile _ _
  have hl : l = l.takeWhile isPySpace ++ (dtr (dw l) ++ post) := by
    rw [hpost, hpre]
  rw [hab] at hl
  exact hasSub_iff.mpr ⟨l.takeWhile isPySpace ++ a, b ++ post,
    by simpa [List.append_assoc] using hl⟩

/-! ## Claim C6 — hour estimation formula -/

theorem bonusFold_eq (t : String) (kws : List (String × ℕ)) :
    bonusFold t kws = ((kws.filter (fun p => pyContains t p.1)).map (fun p => p.2)).sum := by
  induction kws with
  | nil => rfl
  | cons p rest ih =>
    by_cases h : pyContains t p.1 = true
    · simp [bonusFold, List.filter_cons, h, ih]
    · simp [bonusFold, List.filter_cons, h, ih]

/-- C6: for every document text and application type, the estimated hours
    equal the base hours of the application type (web 200 / mobile 300 /
    both 400 / desktop 250 / api 150, default 200), plus the fixed bonus of
    every capability keyword found as a case-insensitive substring of the
    document, the sum scaled by `1 + length_factor` where the document-length
    factor `min(len/10000, 2)` is capped at 2, rounded to one decimal. -/
theorem C6_hours_formula (document_text application_type : String) :
    estimate_project_hours document_text application_type =
      pyRound1
        (((base_hours application_type : ℚ) +
            ((((complexity_indicators.filter
                (fun p => pyContains (pyLower document_text) p.1)).map
              (fun p => p.2)).sum : ℕ) : ℚ)) *
          (1 + min ((document_text.length : ℚ) / 10000) 2)) ∧
    base_hours "web" = 200 ∧ base_hours "mobile" = 300 ∧ base_hours "both" = 400 ∧
    base_hours "desktop" = 250 ∧ base_hours "api" = 150 ∧
    (∀ t, t ≠ "web" → t ≠ "mobile" → t ≠ "both" → t ≠ "desktop" → t ≠ "api" →
      base_hours t = 200) ∧
    min ((document_text.length : ℚ) / 10000) 2 ≤ 2 := by
  refine ⟨?_, rfl, rfl, rfl, rfl, rfl, ?_, min_le_right _ _⟩
  · simp only [estimate_project_hours, bonusFold_eq]
  · intro t h1 h2 h3 h4 h5
    simp [base_hours, h1, h2, h3, h4, h5]

/-- C6 witness: the formula at a concrete document and application type. -/
theorem C6_hours_formula_witness :
    estimate_project_hours "web app with payment and mobile access" "web" =
      pyRound1
        (((base_hours "web" : ℚ) +
            ((((complexity_indicators.filter
                (fun p => pyContains (pyLower "web app with payment and mobile access") p.1)).map
              (fun p => p.2)).sum : ℕ) : ℚ)) *
          (1 + min ((("web app with payment and mobile access".length : ℕ) : ℚ) / 10000) 2)) :=
  (C6_hours_formula "web app with payment and mobile access" "web").1

/-! ## Claim C7 — complexity tie-break precedence -/

/-- C7 counterexample: on a document whose medium keyword score is 3 (and
    high score 0) with 500 estimated hours, the code returns `High` (hours
    dominate), while the claimed precedence — keyword score dominates over
    hours whenever the score is ≥ 3 — demands `Medium`. -/
theorem C7_counterexample :
    keywordScore (pyLower "dashboard reporting payment") high_complexity_keywords < 3 ∧
    3 ≤ keywordScore (pyLower "dashboard reporting payment") medium_complexity_keywords ∧
    assess_complexity "dashboard reporting payment" 500 = "High" ∧
    assess_complexity_specRule "dashboard reporting payment" 500 = "Medium" := by
  refine ⟨by decide, by decide, ?_, ?_⟩ <;> decide

/-- C7 (amended): the label is always one of Low/Medium/High, and the exact
    precedence is: High when the high-keyword score is ≥ 3 **or** hours
    exceed 400 (an hours value above 400 yields High even when the medium
    score is ≥ 3); otherwise Medium when the medium score is ≥ 3 or hours
    exceed 200; otherwise Low. -/
theorem C7_amended (document_text : String) (estimated_hours : ℚ) :
    (assess_complexity document_text estimated_hours = "Low" ∨
     assess_complexity document_text estimated_hours = "Medium" ∨
     assess_complexity document_text estimated_hours = "High") ∧
    assess_complexity document_text estimated_hours =
      (if 3 ≤ keywordScore (pyLower document_text) high_complexity_keywords ∨
          400 < estimated_hours
       then "High"
       else if 3 ≤ keywordScore (pyLower document_text) medium_complexity_keywords ∨
          200 < estimated_hours
       then "Medium" else "Low") := by
  constructor
  · simp only [assess_complexity]
    split_ifs
    · exact Or.inr (Or.inr rfl)
    · exact Or.inr (Or.inl rfl)
    · exact Or.inl rfl
  · rfl

/-! ## Claim C8 — cost formula -/

/-- C8: for every non-empty rate table of positive rates and every
    hours value ≥ 0, the estimated cost equals
    `round(hours × mean(rates), 2)` exactly, where the mean is the arithmetic
    mean (sum of the rate values over their count). -/
theorem C8_cost_formula (rates : List ℚ) (hours : ℚ) (h1 : rates ≠ [])
    (h2 : ∀ r ∈ rates, 0 < r) (h3 : 0 ≤ hours) :
    calculate_project_cost hours rates =
      pyRound2 (hours * (rates.sum / (rates.length : ℚ))) := rfl

/-- C8 witness: the rate table `{a: 90, b: 110}` with 300 hours. -/
theorem C8_cost_formula_witness :
    (([(90 : ℚ), 110] ≠ []) ∧ (∀ r ∈ [(90 : ℚ), 110], 0 < r) ∧
      (0 ≤ (300 : ℚ))) ∧
    calculate_project_cost 300 [90, 110] =
      pyRound2 ((300 : ℚ) * (([(90 : ℚ), 110].sum) / (([(90 : ℚ), 110].length : ℚ)))) :=
  ⟨⟨by decide, by decide, by decide⟩,
    C8_cost_formula [90, 110] 300 (by decide) (by decide) (by decide)⟩

/-! ## Claims C9/C10 — Response Validator / Enhancer -/

/-- Every required marker starts and ends with a non-whitespace character
    (`**…:**`), so occurrences survive `strip`. -/
theorem markers_ends :
    ∀ m ∈ required_sections, firstNonWs m.data = true ∧ lastNonWs m.data = true := by
  decide

theorem pyStrip_data (s : String) : (pyStrip s).data = stripL s.data := rfl

theorem pyContains_strip {s m : String} (hf : firstNonWs m.data = true)
    (hl : lastNonWs m.data = true) (h : pyContains s m = true) :
    pyContains (pyStrip s) m = true := by
  show hasSub m.data (pyStrip s).data = true
  rw [pyStrip_data]
  exact hasSub_strip hf hl h

theorem pyStrip_idem (s : String) : pyStrip (pyStrip s) = pyStrip s :=
  congrArg String.mk (strip_idem s.data)

/-- C9: the Response Validator is idempotent on complete summaries — on text
    already containing all six required section markers it returns the input
    verbatim (trimmed), and applying it twice equals applying it once. -/
theorem C9_validator_idempotent (t : String)
    (hc : ∀ m ∈ required_sections, pyContains t m = true) :
    format_ai_response t = pyStrip t ∧
    format_ai_response (format_ai_response t) = format_ai_response t := by
  have hall : (required_sections.all fun s => pyContains t s) = true :=
    List.all_eq_true.mpr hc
  have h1 : format_ai_response t = pyStrip t := by
    unfold format_ai_response
    rw [if_pos hall]
  have hc' : ∀ m ∈ required_sections, pyContains (pyStrip t) m = true := by
    intro m hm
    exact pyContains_strip (markers_ends m hm).1 (markers_ends m hm).2 (hc m hm)
  have hall' : (required_sections.all fun s => pyContains (pyStrip t) s) = true :=
    List.all_eq_true.mpr hc'
  have h2 : format_ai_response (pyStrip t) = pyStrip (pyStrip t) := by
    unfold format_ai_response
    rw [if_pos hall']
  exact ⟨h1, by rw [h1, h2, pyStrip_idem]⟩

/-- C9 witness: a concrete complete summary text. -/
theorem C9_validator_idempotent_witness :
    (∀ m ∈ required_sections,
      pyContains ("**EXECUTIVE OVERVIEW:** a **FUNCTIONAL REQUIREMENTS:** b **TECHNICAL REQUIREMENTS:** c **OPERATIONAL REQUIREMENTS:** d **BUSINESS CONTEXT & CONSTRAINTS:** e **SUCCESS CRITERIA & DELIVERABLES:** f") m = true) ∧
    (format_ai_response "**EXECUTIVE OVERVIEW:** a **FUNCTIONAL REQUIREMENTS:** b **TECHNICAL REQUIREMENTS:** c **OPERATIONAL REQUIREMENTS:** d **BUSINESS CONTEXT & CONSTRAINTS:** e **SUCCESS CRITERIA & DELIVERABLES:** f" =
      pyStrip "**EXECUTIVE OVERVIEW:** a **FUNCTIONAL REQUIREMENTS:** b **TECHNICAL REQUIREMENTS:** c **OPERATIONAL REQUIREMENTS:** d **BUSINESS CONTEXT & CONSTRAINTS:** e **SUCCESS CRITERIA & DELIVERABLES:** f" ∧
     format_ai_response (format_ai_response "**EXECUTIVE OVERVIEW:** a **FUNCTIONAL REQUIREMENTS:** b **TECHNICAL REQUIREMENTS:** c **OPERATIONAL REQUIREMENTS:** d **BUSINESS CONTEXT & CONSTRAINTS:** e **SUCCESS CRITERIA & DELIVERABLES:** f") =
      format_ai_response "**EXECUTIVE OVERVIEW:** a **FUNCTIONAL REQUIREMENTS:** b **TECHNICAL REQUIREMENTS:** c **OPERATIONAL REQUIREMENTS:** d **BUSINESS CONTEXT & CONSTRAINTS:** e **SUCCESS CRITERIA & DELIVERABLES:** f") :=
  ⟨by decide,
    C9_validator_idempotent
      "**EXECUTIVE OVERVIEW:** a **FUNCTIONAL REQUIREMENTS:** b **TECHNICAL REQUIREMENTS:** c **OPERATIONAL REQUIREMENTS:** d **BUSINESS CONTEXT & CONSTRAINTS:** e **SUCCESS CRITERIA & DELIVERABLES:** f"
      (by decide)⟩

theorem enhanceFold_extends (hs : List String) (acc : String) :
    ∃ s, enhanceFold acc hs = acc ++ s := by
  induction hs generalizing acc with
  | nil => exact ⟨"", by simp [enhanceFold]⟩
  | cons h rest ih =>
    by_cases hcon : pyContains acc h = true
    · rcases ih acc with ⟨s, hs⟩
      exact ⟨s, by simp [enhanceFold, hcon, hs]⟩
    · rcases ih (acc ++ sectionBlock h) with ⟨s, hs⟩
      refine ⟨sectionBlock h ++ s, ?_⟩
      rw [enhanceFold, if_neg hcon, hs, String.append_assoc]

theorem pyContains_append_right {a b m : String} (h : pyContains a m = true) :
    pyContains (a ++ b) m = true := by
  show hasSub m.data (a ++ b).data = true
  rw [String.data_append]
  exact hasSub_append_right h

theorem pyContains_append_left {a b m : String} (h : pyContains b m = true) :
    pyContains (a ++ b) m = true := by
  show hasSub m.data (a ++ b).data = true
  rw [String.data_append]
  exact hasSub_append_left h

theorem enhanceFold_mono {m acc : String} (hs : List String)
    (h : pyContains acc m = true) : pyContains (enhanceFold acc hs) m = true := by
  induction hs generalizing acc with
  | nil => exact h
  | cons h' rest ih =>
    by_cases hcon : pyContains acc h' = true
    · simpa [enhanceFold, hcon] using ih h
    · simp only [enhanceFold, hcon, if_false]
      exact ih (pyContains_append_right h)

theorem sectionBlock_contains (h : String) : pyContains (sectionBlock h) h = true := by
  show hasSub h.data (sectionBlock h).data = true
  unfold sectionBlock
  rw [String.data_append, String.data_append, String.data_append]
  exact hasSub_iff.mpr ⟨"\n\n".data, "\n".data ++ (default_section_content h).data,
    by simp [List.append_assoc]⟩

theorem enhanceFold_all (hs : List String) (acc : String) :
    ∀ m ∈ hs, pyContains (enhanceFold acc hs) m = true := by
  induction hs generalizing acc with
  | nil => intro m hm; simp at hm
  | cons h' rest ih =>
    intro m hm
    rcases List.mem_cons.mp hm with rfl | hm'
    · by_cases hcon : pyContains acc m = true
      · simpa [enhanceFold, hcon] using enhanceFold_mono rest hcon
      · simp only [enhanceFold, hcon, if_false]
        exact enhanceFold_mono rest (pyContains_append_left (sectionBlock_contains m))
    · by_cases hcon : pyContains acc h' = true
      · simpa [enhanceFold, hcon] using ih acc m hm'
      · simp only [enhanceFold, hcon, if_false]
        exact ih _ m hm'

/-- C10 counterexample: an input that duplicates the `EXECUTIVE OVERVIEW`
    marker and is missing the `SUCCESS CRITERIA` marker.  The Enhancer's
    output contains the duplicated marker twice, refuting "all six markers
    exactly once each". -/
theorem C10_counterexample :
    pyContains "**EXECUTIVE OVERVIEW:**x**EXECUTIVE OVERVIEW:****FUNCTIONAL REQUIREMENTS:****TECHNICAL REQUIREMENTS:****OPERATIONAL REQUIREMENTS:****BUSINESS CONTEXT & CONSTRAINTS:**" "**SUCCESS CRITERIA & DELIVERABLES:**" = false ∧
    pyCount (enhance_incomplete_response "**EXECUTIVE OVERVIEW:**x**EXECUTIVE OVERVIEW:****FUNCTIONAL REQUIREMENTS:****TECHNICAL REQUIREMENTS:****OPERATIONAL REQUIREMENTS:****BUSINESS CONTEXT & CONSTRAINTS:**") "**EXECUTIVE OVERVIEW:**" = 2 := by
  exact ⟨by decide, by decide⟩

/-- C10 (amended): for every summary text missing at least one of the six
    markers, the validator hands off to the Enhancer; the Enhancer's output
    extends the trimmed input (existing text preserved, each appended section
    being `\n\n` + marker + `\n` + that marker's fixed canned paragraph, in
    the fixed order, for exactly the markers not already present), and the
    output contains all six markers at least once.  ("Exactly once each"
    holds only when the input does not duplicate markers.) -/
theorem C10_enhancer_amended (t : String)
    (hmiss : ¬ ∀ m ∈ required_sections, pyContains t m = true) :
    format_ai_response t = enhance_incomplete_response t ∧
    (∃ s, enhance_incomplete_response t = pyStrip t ++ s) ∧
    (∀ m ∈ required_sections, pyContains (enhance_incomplete_response t) m = true) := by
  have hall : (required_sections.all fun s => pyContains t s) ≠ true := by
    intro hat
    exact hmiss (List.all_eq_true.mp hat)
  refine ⟨?_, enhanceFold_extends _ _, enhanceFold_all _ _⟩
  unfold format_ai_response
  rw [if_neg hall]

/-- C10 witness for the amended claim: a text containing only the first
    marker. -/
theorem C10_enhancer_amended_witness :
    (¬ ∀ m ∈ required_sections, pyContains "**EXECUTIVE OVERVIEW:**" m = true) ∧
    (format_ai_response "**EXECUTIVE OVERVIEW:**" =
        enhance_incomplete_response "**EXECUTIVE OVERVIEW:**" ∧
     (∃ s, enhance_incomplete_response "**EXECUTIVE OVERVIEW:**" =
        pyStrip "**EXECUTIVE OVERVIEW:**" ++ s) ∧
     (∀ m ∈ required_sections,
        pyContains (enhance_incomplete_response "**EXECUTIVE OVERVIEW:**") m = true)) :=
  ⟨by decide, C10_enhancer_amended "**EXECUTIVE OVERVIEW:**" (by decide)⟩

/-! ## Claim C3 — Excel export row count and aggregate totals -/

theorem excel_data_length (tasks : List StoredTask) :
    (excel_data tasks).length =
      tasks.length + (tasks.map (fun t => t.subtasks.length)).sum := by
  induction tasks with
  | nil => simp [excel_data]
  | cons t ts ih =>
    simp [excel_data, ih]
    omega

theorem excel_data_main_rows (tasks : List StoredTask) :
    (excel_data tasks).filter (fun r => r.taskType == "Main Task") =
      tasks.map taskRow := by
  induction tasks with
  | nil => simp [excel_data]
  | cons t ts ih =>
    have hsub : (t.subtasks.map (subRow t)).filter
        (fun r => r.taskType == "Main Task") = [] := by
      apply List.filter_eq_nil.mpr
      intro r hr
      rcases List.mem_map.mp hr with ⟨s, _, rfl⟩
      simp [subRow]
    simp [excel_data, List.filter_append, List.filter_cons, taskRow, hsub, ih]

/-- C3 counterexample: one task of 10 hours with one subtask of 5 hours.
    The summary sheet's aggregate hour total is 10 — the subtask's hours are
    not added — refuting "aggregate hour total equals the sum of all
    Task.estimated_hours plus all Subtask.estimated_hours". -/
def c3_sub : StoredSub :=
  { title := "S", description := none, priority := none,
    estimated_hours := some 5, estimated_cost := none, order_index := 1,
    created_at := none }

def c3_task : StoredTask :=
  { title := "T", description := none, category := none, module := none,
    priority := "High", estimated_hours := some 10, estimated_cost := none,
    complexity := none, order_index := 1, created_at := none,
    subtasks := [c3_sub] }

theorem C3_counterexample :
    export_total_hours [c3_task] = 10 ∧
    ([c3_task].map (fun t => t.estimated_hours.getD 0)).sum +
      ([c3_task].map (fun t =>
        (t.subtasks.map (fun s => s.estimated_hours.getD 0)).sum)).sum = 15 ∧
    (10 : ℚ) ≠ 15 := by
  refine ⟨?_, ?_, by norm_num⟩
  · norm_num [export_total_hours, c3_task, c3_sub]
  · norm_num [c3_task, c3_sub]

/-- C3 (amended): the detail sheet has exactly one data row per task plus one
    per subtask, each task row immediately followed by its subtask rows (in
    the given `order_index` order); the summary sheet's aggregate hour total
    sums the hours of the *task* rows only — subtask hours are excluded from
    the aggregate (and likewise for cost). -/
theorem C3_export_rows_and_totals (tasks : List StoredTask) :
    (excel_data tasks).length =
      tasks.length + (tasks.map (fun t => t.subtasks.length)).sum ∧
    (∀ t rest, excel_data (t :: rest) =
      taskRow t :: (t.subtasks.map (subRow t) ++ excel_data rest)) ∧
    export_total_hours tasks =
      (((excel_data tasks).filter (fun r => r.taskType == "Main Task")).map
        (fun r => r.estimatedHours)).sum ∧
    export_total_hours tasks = (tasks.map (fun t => t.estimated_hours.getD 0)).sum ∧
    export_total_cost tasks = (tasks.map (fun t => t.estimated_cost.getD 0)).sum := by
  refine ⟨excel_data_length tasks, fun _ _ => rfl, ?_, rfl, rfl⟩
  rw [excel_data_main_rows, List.map_map]
  rfl

/-! ## Claim C5 — parser order_index contiguity -/

theorem range'_split (k a b : Nat) :
    List.range' k (a + b) = List.range' k a ++ List.range' (k + a) b := by
  induction a generalizing k with
  | zero => simp
  | succ a ih =>
    rw [Nat.succ_add, List.range'_succ, List.range'_succ, ih (k + 1)]
    have h : k + 1 + a = k + (a + 1) := by omega
    rw [h]
    simp [List.cons_append]

theorem storeSubsGo_map (k : Nat) (subs : List ParsedSub) :
    (storeSubsGo k subs).map (fun s => s.order_index) =
      List.range' k subs.length := by
  induction subs generalizing k with
  | nil => simp [storeSubsGo]
  | cons s rest ih => simp [storeSubsGo, List.range'_succ, ih]

theorem storeSubsGo_length (k : Nat) (subs : List ParsedSub) :
    (storeSubsGo k subs).length = subs.length := by
  induction subs generalizing k with
  | nil => rfl
  | cons s rest ih => simp [storeSubsGo, ih]

theorem storeTasksGo_map (m : String) (k : Nat) (ts : List ParsedTask) :
    (storeTasksGo m k ts).map (fun t => t.order_index) =
      List.range' k ts.length := by
  induction ts generalizing k with
  | nil => simp [storeTasksGo]
  | cons t rest ih => simp [storeTasksGo, storedOfParsed, List.range'_succ, ih]

theorem storeTasksGo_length (m : String) (k : Nat) (ts : List ParsedTask) :
    (storeTasksGo m k ts).length = ts.length := by
  induction ts generalizing k with
  | nil => rfl
  | cons t rest ih => simp [storeTasksGo, ih]

theorem storeModulesGo_map (k : Nat) (ms : List ParsedModule) :
    (storeModulesGo k ms).map (fun t => t.order_index) =
      List.range' k ((ms.map (fun m => m.tasks.length)).sum) := by
  induction ms generalizing k with
  | nil => simp [storeModulesGo]
  | cons m rest ih =>
    rw [storeModulesGo, List.map_append, storeTasksGo_map, ih, List.map_cons,
      List.sum_cons, range'_split]

theorem storeModulesGo_length (k : Nat) (ms : List ParsedModule) :
    (storeModulesGo k ms).length = (ms.map (fun m => m.tasks.length)).sum := by
  induction ms generalizing k with
  | nil => rfl
  | cons m rest ih =>
    rw [storeModulesGo, List.length_append, storeTasksGo_length, ih,
      List.map_cons, List.sum_cons]

theorem storeTasksGo_subs (m : String) (k : Nat) (ts : List ParsedTask) :
    ∀ t ∈ storeTasksGo m k ts,
      t.subtasks.map (fun s => s.order_index) = List.range' 1 t.subtasks.length := by
  induction ts generalizing k with
  | nil => intro t ht; simp [storeTasksGo] at ht
  | cons p rest ih =>
    intro t ht
    rcases List.mem_cons.mp ht with rfl | ht'
    · show (storeSubsGo 1 p.subtasks).map (fun s => s.order_index) =
        List.range' 1 (storeSubsGo 1 p.subtasks).length
      rw [storeSubsGo_map, storeSubsGo_length]
    · exact ih (k + 1) t ht'

theorem storeModulesGo_subs (k : Nat) (ms : List ParsedModule) :
    ∀ t ∈ storeModulesGo k ms,
      t.subtasks.map (fun s => s.order_index) = List.range' 1 t.subtasks.length := by
  induction ms generalizing k with
  | nil => intro t ht; simp [storeModulesGo] at ht
  | cons m rest ih =>
    intro t ht
    rcases List.mem_append.mp ht with h1 | h2
    · exact storeTasksGo_subs m.name k m.tasks t h1
    · exact ih _ t h2

/-- C5: for every breakdown text accepted by the density gate (at least 3
    module headers and 5 task headers), the flat task list stored by
    `_parse_and_store_tasks` carries `order_index` values forming exactly the
    contiguous sequence 1..N in discovery order, and each stored task's
    subtasks carry `order_index` 1..(number of its subtasks); the embedding is
    a pure function of the text, so re-parses of identical input are
    identical. -/
theorem C5_order_index_contiguous (text : String)
    (hgate : 3 ≤ countModuleHeaders text ∧ 5 ≤ countTaskHeaders text) :
    (storedTasksOfText text).map (fun t => t.order_index) =
      List.range' 1 (storedTasksOfText text).length ∧
    ∀ t ∈ storedTasksOfText text,
      t.subtasks.map (fun s => s.order_index) = List.range' 1 t.subtasks.length := by
  constructor
  · show (storeModulesGo 1 _).map _ = List.range' 1 (storeModulesGo 1 _).length
    rw [storeModulesGo_map, storeModulesGo_length]
  · exact storeModulesGo_subs 1 _

/-- The breakdown text used to witness C5/C4 and to refute C2: three modules,
    five full task blocks, six subtask lines, 786 characters. -/
def sample_breakdown : String := "**Module 1: Alpha Work**\nTask 1.1: Build core\n- Description: Core work items\n- Estimated Hours: 10\n- Priority: High\n- Subtasks:\n  * Setup: env prep - 2 hours - High\n  * Code: impl work - 8 hours - Medium\n\nTask 1.2: Extend core\n- Description: More work\n- Estimated Hours: 6\n- Priority: Medium\n- Subtasks:\n  * Extend: adapters - 6 hours - Low\n\n**Module 2: Beta Work**\nTask 2.1: Test suite\n- Description: QA work\n- Estimated Hours: 5\n- Priority: Medium\n- Subtasks:\n  * Unit: tests - 5 hours - High\n\nTask 2.2: Review\n- Description: Review work\n- Estimated Hours: 3\n- Priority: Low\n- Subtasks:\n  * Read: code review - 3 hours - Low\n\n**Module 3: Gamma Work**\nTask 3.1: Ship it\n- Description: Deploy work\n- Estimated Hours: 4\n- Priority: Low\n- Subtasks:\n  * Release: push live - 4 hours - Low\n"

set_option maxHeartbeats 2000000 in
/-- C5 witness: the density gate accepts `sample_breakdown`, and its stored
    tasks carry contiguous 1-based order indices. -/
theorem C5_order_index_contiguous_witness :
    (3 ≤ countModuleHeaders sample_breakdown ∧
      5 ≤ countTaskHeaders sample_breakdown) ∧
    ((storedTasksOfText sample_breakdown).map (fun t => t.order_index) =
        List.range' 1 (storedTasksOfText sample_breakdown).length ∧
      ∀ t ∈ storedTasksOfText sample_breakdown,
        t.subtasks.map (fun s => s.order_index) =
          List.range' 1 t.subtasks.length) :=
  ⟨by decide, C5_order_index_contiguous sample_breakdown (by decide)⟩

/-! ## Claim C4 — density gate and fallback substitution -/

set_option maxHeartbeats 1000000 in
/-- C4 counterexample: a 63-character text containing 3 module headers and 5
    task headers is still rejected (stripped length < 100), so "if it
    contains at least 3 module headers and at least 5 task headers, the
    generated text is accepted" is false as stated. -/
theorem C4_counterexample :
    3 ≤ countModuleHeaders "**Module 1:**Module 2:**Module 3:Task 1Task 2Task 3Task 4Task 5" ∧
    5 ≤ countTaskHeaders "**Module 1:**Module 2:**Module 3:Task 1Task 2Task 3Task 4Task 5" ∧
    format_task_breakdown_response "**Module 1:**Module 2:**Module 3:Task 1Task 2Task 3Task 4Task 5" ≠
      pyStrip "**Module 1:**Module 2:**Module 3:Task 1Task 2Task 3Task 4Task 5" := by
  exact ⟨by decide, by decide, by decide⟩

/-- C4 (amended): the gate also requires a non-empty response whose stripped
    length is at least 100.  A response failing any of the four conditions is
    replaced wholesale by the fallback breakdown built from the literal
    default stack — byte-identical across all rejected inputs; a response
    satisfying all four is returned stripped. -/
theorem C4_gate (s : String) :
    ((s = "" ∨ (pyStrip s).length < 100 ∨ countModuleHeaders s < 3 ∨
        countTaskHeaders s < 5) →
      format_task_breakdown_response s =
        create_fallback_task_breakdown defaultTechStack) ∧
    (s ≠ "" → 100 ≤ (pyStrip s).length → 3 ≤ countModuleHeaders s →
      5 ≤ countTaskHeaders s →
      format_task_breakdown_response s = pyStrip s) ∧
    (∀ s2, (s = "" ∨ (pyStrip s).length < 100 ∨ countModuleHeaders s < 3 ∨
        countTaskHeaders s < 5) →
      (s2 = "" ∨ (pyStrip s2).length < 100 ∨ countModuleHeaders s2 < 3 ∨
        countTaskHeaders s2 < 5) →
      format_task_breakdown_response s = format_task_breakdown_response s2) := by
  have hrej : ∀ r : String,
      (r = "" ∨ (pyStrip r).length < 100 ∨ countModuleHeaders r < 3 ∨
        countTaskHeaders r < 5) →
      format_task_breakdown_response r =
        create_fallback_task_breakdown defaultTechStack := by
    intro r hr
    unfold format_task_breakdown_response
    by_cases h1 : r = "" ∨ (pyStrip r).length < 100
    · rw [if_pos h1]
    · rw [if_neg h1]
      have h2 : countModuleHeaders r < 3 ∨ countTaskHeaders r < 5 := by
        rcases hr with h | h | h | h
        · exact absurd (Or.inl h) h1
        · exact absurd (Or.inr h) h1
        · exact Or.inl h
        · exact Or.inr h
      rw [if_pos h2]
  refine ⟨hrej s, ?_, fun s2 h1 h2 => (hrej s h1).trans (hrej s2 h2).symm⟩
  intro h1 h2 h3 h4
  unfold format_task_breakdown_response
  have hc1 : ¬(s = "" ∨ (pyStrip s).length < 100) := by
    rintro (h | h)
    · exact h1 h
    · exact absurd h (not_lt.mpr h2)
  have hc2 : ¬(countModuleHeaders s < 3 ∨ countTaskHeaders s < 5) := by
    rintro (h | h)
    · exact absurd h (not_lt.mpr h3)
    · exact absurd h (not_lt.mpr h4)
  rw [if_neg hc1, if_neg hc2]

set_option maxHeartbeats 2000000 in
/-- C4 witness: `sample_breakdown` passes all four gate conditions and is
    returned stripped. -/
theorem C4_gate_witness :
    (sample_breakdown ≠ "" ∧ 100 ≤ (pyStrip sample_breakdown).length ∧
      3 ≤ countModuleHeaders sample_breakdown ∧
      5 ≤ countTaskHeaders sample_breakdown) ∧
    format_task_breakdown_response sample_breakdown = pyStrip sample_breakdown := by
  have hA : sample_breakdown ≠ "" := by decide
  have hB : 100 ≤ (pyStrip sample_breakdown).length := by decide
  have hC : 3 ≤ countModuleHeaders sample_breakdown := by decide
  have hD : 5 ≤ countTaskHeaders sample_breakdown := by decide
  exact ⟨⟨hA, hB, hC, hD⟩, (C4_gate sample_breakdown).2.1 hA hB hC hD⟩

/-! ## Claim C2 — forced regeneration is not one transaction -/

def c2_analysis : AnalysisRec :=
  { summary := none, technology_stack := none, complexity_level := none }

def c2_old : StoredTask :=
  { title := "Old task", description := some "previous", category := none,
    module := some "Module 1: Old", priority := "High",
    estimated_hours := some 8, estimated_cost := none, complexity := none,
    order_index := 1, created_at := none, subtasks := [] }

/-- Forced regeneration with one committed old task, a provider returning an
    accepted breakdown, and the bulk insertion failing at its first add. -/
def c2_result : Except BreakdownError String × List StoredTask :=
  generate_task_breakdown (some ()) (some c2_analysis) [c2_old] true
    [some sample_breakdown] (some 0)

set_option maxHeartbeats 4000000 in
/-- C2 counterexample: the `force_regenerate` delete is committed on its own
    before parsing begins, so when the bulk insertion fails the rollback
    restores the *post-delete* state: the analysis ends with **no** tasks —
    neither the complete old set nor the complete new set — while the call
    still returns the breakdown text. -/
theorem C2_counterexample :
    ¬(c2_result.2 = [c2_old] ∨
      c2_result.2 = storedTasksOfText (pyStrip sample_breakdown)) ∧
    c2_result.2 = [] ∧
    c2_result.1 = .ok (pyStrip sample_breakdown) := by
  have h0 : c2_result.2 = [] := by decide
  have h1 : ([c2_old] : List StoredTask) ≠ [] := by decide
  have h2 : storedTasksOfText (pyStrip sample_breakdown) ≠ [] := by decide
  refine ⟨?_, h0, rfl⟩
  rintro (h | h)
  · rw [h0] at h
    exact h1 h.symm
  · rw [h0] at h
    exact h2 h.symm

/-- C2 (amended): on forced regeneration the clearing of the old tasks is
    committed immediately, before generation; only the bulk insertion itself
    is atomic.  After the call the analysis holds either the complete new
    task set (insertion succeeded) or no tasks at all (insertion failed and
    rolled back to the post-delete commit); the old set is never restored.
    The call itself still returns the breakdown text. -/
theorem C2_regeneration_amended (a : AnalysisRec) (old : List StoredTask)
    (provs : List (Option String)) (failAt : Option Nat) :
    (generate_task_breakdown (some ()) (some a) old true provs failAt).1 =
      .ok (generate_detailed_task_breakdown provs
        (extract_technology_stack_from_analysis a)) ∧
    ((generate_task_breakdown (some ()) (some a) old true provs failAt).2 = [] ∨
     (generate_task_breakdown (some ()) (some a) old true provs failAt).2 =
       storedTasksOfText (generate_detailed_task_breakdown provs
         (extract_technology_stack_from_analysis a))) ∧
    (failAt = none →
     (generate_task_breakdown (some ()) (some a) old true provs failAt).2 =
       storedTasksOfText (generate_detailed_task_breakdown provs
         (extract_technology_stack_from_analysis a))) := by
  cases failAt with
  | none => simp [generate_task_breakdown, storedTasksOfText]
  | some k =>
    by_cases hk : k < insertOpsCount (parse_task_breakdown_text
      (generate_detailed_task_breakdown provs
        (extract_technology_stack_from_analysis a)))
    · simp [generate_task_breakdown, storedTasksOfText, hk]
    · simp [generate_task_breakdown, storedTasksOfText, hk]

/-- C2 witness for the amended claim: with no insertion failure the final
    state is exactly the newly stored task set. -/
theorem C2_regeneration_amended_witness :
    (generate_task_breakdown (some ()) (some c2_analysis) [] true [] none).2 =
      storedTasksOfText (generate_detailed_task_breakdown []
        (extract_technology_stack_from_analysis c2_analysis)) :=
  (C2_regeneration_amended c2_analysis [] [] none).2.2 rfl

/-! ## Claim C1 — resilience of summary and breakdown generation -/

theorem ne_empty_of_contains {s m : String} (h : pyContains s m = true)
    (hm : m.data ≠ []) : s ≠ "" := by
  intro hs
  subst hs
  cases hmd : m.data with
  | nil => exact hm hmd
  | cons c t =>
    have h2 : hasSub m.data ([] : List Char) = true := h
    rw [hmd] at h2
    simp [hasSub, isPre] at h2

theorem append_ne_empty_left {s t : String} (h : s ≠ "") : s ++ t ≠ "" := by
  intro he
  have hd : (s ++ t).data = [] := congrArg String.data he
  rw [String.data_append] at hd
  rcases List.append_eq_nil.mp hd with ⟨h1, _⟩
  cases s with
  | mk d =>
    have : d = [] := h1
    subst this
    exact h rfl

theorem create_mock_ne_empty (d : String) : create_mock_rfp_summary d ≠ "" := by
  unfold create_mock_rfp_summary
  repeat' apply append_ne_empty_left
  decide

theorem create_fallback_ne_empty (stack : TechStack) :
    create_fallback_task_breakdown stack ≠ "" := by
  unfold create_fallback_task_breakdown
  repeat' apply append_ne_empty_left
  decide

theorem format_ai_response_ne_empty (t : String) : format_ai_response t ≠ "" := by
  unfold format_ai_response
  by_cases hall : (required_sections.all fun s => pyContains t s) = true
  · rw [if_pos hall]
    have h0 : pyContains t "**EXECUTIVE OVERVIEW:**" = true :=
      List.all_eq_true.mp hall _ (by simp [required_sections])
    have h1 : pyContains (pyStrip t) "**EXECUTIVE OVERVIEW:**" = true :=
      pyContains_strip (by decide) (by decide) h0
    exact ne_empty_of_contains h1 (by decide)
  · rw [if_neg hall]
    have h1 : pyContains (enhance_incomplete_response t) "**EXECUTIVE OVERVIEW:**" = true :=
      enhanceFold_all required_sections (pyStrip t) _ (by simp [required_sections])
    exact ne_empty_of_contains h1 (by decide)

theorem firstSuccess_eq_none {provs : List (Option String)}
    (h : ∀ p ∈ provs, p = none) : firstSuccess provs = none := by
  induction provs with
  | nil => rfl
  | cons p rest ih =>
    have hp : p = none := h p (by simp)
    subst hp
    exact ih fun q hq => h q (by simp [hq])

theorem generate_rfp_summary_ne_empty (provs : List (Option String)) (d : String) :
    generate_rfp_summary provs d ≠ "" := by
  unfold generate_rfp_summary
  cases hfs : firstSuccess provs with
  | some raw => simp only [hfs]; exact format_ai_response_ne_empty raw
  | none => simp only [hfs]; exact create_mock_ne_empty d

theorem firstLong_eq_none {provs : List (Option String)}
    (h : ∀ p ∈ provs, p = none) : firstLong provs = none := by
  induction provs with
  | nil => rfl
  | cons p rest ih =>
    have hp : p = none := h p (by simp)
    subst hp
    exact ih fun q hq => h q (by simp [hq])

theorem generate_detailed_all_fail {provs : List (Option String)} {stack : TechStack}
    (h : ∀ p ∈ provs, p = none) :
    generate_detailed_task_breakdown provs stack =
      create_fallback_task_breakdown stack := by
  unfold generate_detailed_task_breakdown
  rw [firstLong_eq_none h]

theorem format_task_breakdown_response_ne_empty (r : String) :
    format_task_breakdown_response r ≠ "" := by
  unfold format_task_breakdown_response
  split_ifs with h1 h2
  · exact create_fallback_ne_empty _
  · exact create_fallback_ne_empty _
  · intro he
    have hz : (pyStrip r).length = 0 := by rw [he]; rfl
    rw [not_or] at h1
    exact h1.2 (by rw [hz]; decide)

theorem generate_detailed_ne_empty (provs : List (Option String)) (stack : TechStack) :
    generate_detailed_task_breakdown provs stack ≠ "" := by
  unfold generate_detailed_task_breakdown
  cases h : firstLong provs with
  | some r => simp only [h]; exact format_task_breakdown_response_ne_empty r
  | none => simp only [h]; exact create_fallback_ne_empty stack

theorem firstNonWs_append {a b : List Char} (h : firstNonWs a = true) :
    firstNonWs (a ++ b) = true := by
  cases a with
  | nil => simp [firstNonWs] at h
  | cons c t => simpa [firstNonWs, List.cons_append] using h

theorem pyStrip_ne_empty_of_firstNonWs {s : String} (h : firstNonWs s.data = true) :
    pyStrip s ≠ "" := by
  intro he
  have hd : stripL s.data = [] := congrArg String.data he
  rw [stripL_eq] at hd
  cases hs : s.data with
  | nil => rw [hs] at h; simp [firstNonWs] at h
  | cons c t =>
    rw [hs] at h hd
    have hc : isPySpace c = false := by simpa [firstNonWs] using h
    have hdw : dw (c :: t) = c :: t := by simp [dw, List.dropWhile, hc]
    rw [hdw] at hd
    have hall := dtr_eq_nil_iff.mp hd
    simp [List.all_cons, hc] at hall

theorem format_existing_ne_empty (tasks : List StoredTask) :
    format_existing_tasks_as_breakdown tasks ≠ "" := by
  unfold format_existing_tasks_as_breakdown
  split_ifs with h
  · exact create_fallback_ne_empty _
  · apply pyStrip_ne_empty_of_firstNonWs
    rw [String.data_append]
    exact firstNonWs_append (by decide)

/-- The result component of `generate_task_breakdown` with both upstream rows
    present: the existing breakdown when tasks exist and regeneration is not
    forced, else the freshly generated breakdown. -/
theorem generate_task_breakdown_fst (a : AnalysisRec) (old : List StoredTask)
    (force : Bool) (bdProvs : List (Option String)) (failAt : Option Nat) :
    (generate_task_breakdown (some ()) (some a) old force bdProvs failAt).1 =
      if old ≠ [] ∧ force = false then
        .ok (format_existing_tasks_as_breakdown old)
      else
        .ok (generate_detailed_task_breakdown bdProvs
          (extract_technology_stack_from_analysis a)) := by
  unfold generate_task_breakdown
  split_ifs <;> rfl

/-- C1: with the upstream preconditions met (RFP row, document, and — for
    breakdowns — a prior analysis all present), generation terminates with a
    non-empty result whatever the providers do; when every provider fails the
    summary is the deterministic offline mock summary and a fresh breakdown
    is the technology-specific fallback breakdown; and only the missing-RFP /
    missing-document / missing-analysis conditions surface to the caller as
    errors (for breakdowns, via the handler's `TypeError`, since its
    fallback call lacks the required `technology_stack` argument). -/
theorem C1_resilient_generation (sumProvs bdProvs : List (Option String))
    (doc : String) (rfpSum : Option (Option String)) (a : AnalysisRec)
    (old : List StoredTask) (force : Bool) (failAt : Option Nat) :
    ((analyze_rfp_document rfpSum sumProvs).isOk = true ↔
      ∃ d, rfpSum = some (some d)) ∧
    generate_rfp_summary sumProvs doc ≠ "" ∧
    ((∀ p ∈ sumProvs, p = none) →
      generate_rfp_summary sumProvs doc = create_mock_rfp_summary doc) ∧
    (generate_task_breakdown (some ()) (some a) old force bdProvs failAt).1.isOk
      = true ∧
    (∀ s, (generate_task_breakdown (some ()) (some a) old force bdProvs failAt).1
      = .ok s → s ≠ "") ∧
    ((old = [] ∨ force = true) → (∀ p ∈ bdProvs, p = none) →
      (generate_task_breakdown (some ()) (some a) old force bdProvs failAt).1 =
        .ok (create_fallback_task_breakdown
          (extract_technology_stack_from_analysis a))) ∧
    (∀ (rfp : Option Unit) (an : Option AnalysisRec),
      (generate_task_breakdown rfp an old force bdProvs failAt).1.isOk = false ↔
        (rfp = none ∨ an = none)) := by
  refine ⟨?_, generate_rfp_summary_ne_empty sumProvs doc, ?_, ?_, ?_, ?_, ?_⟩
  · cases rfpSum with
    | none => simp [analyze_rfp_document, Except.isOk, Except.toBool]
    | some o =>
      cases o with
      | none => simp [analyze_rfp_document, Except.isOk, Except.toBool]
      | some d => simp [analyze_rfp_document, Except.isOk, Except.toBool]
  · intro h
    unfold generate_rfp_summary
    rw [firstSuccess_eq_none h]
  · rw [generate_task_breakdown_fst]
    split_ifs <;> rfl
  · intro s hs
    rw [generate_task_breakdown_fst] at hs
    split_ifs at hs with h
    · injection hs with h2
      exact h2 ▸ format_existing_ne_empty old
    · injection hs with h2
      exact h2 ▸ generate_detailed_ne_empty bdProvs _
  · intro hfresh hnone
    rw [generate_task_breakdown_fst, if_neg, generate_detailed_all_fail hnone]
    rcases hfresh with h | h
    · simp [h]
    · simp [h]
  · intro rfp an
    cases rfp with
    | none => simp [generate_task_breakdown, Except.isOk, Except.toBool]
    | some u =>
      cases an with
      | none => simp [generate_task_breakdown, Except.isOk, Except.toBool]
      | some a2 =>
        rw [show (some u) = (some ()) from rfl, generate_task_breakdown_fst]
        split_ifs <;> simp [Except.isOk, Except.toBool]

/-- C1 witness: with every provider failing, the summary for a concrete
    document is the offline mock summary, and a fresh breakdown resolves to
    the fallback for the analysis's extracted stack. -/
theorem C1_resilient_generation_witness :
    ((∀ p ∈ ([none, none, none] : List (Option String)), p = none) ∧
      (([] : List StoredTask) = [] ∨ true = true)) ∧
    generate_rfp_summary [none, none, none] "a web portal rfp" =
      create_mock_rfp_summary "a web portal rfp" ∧
    (generate_task_breakdown (some ()) (some c2_analysis) [] true
        [none, none, none] none).1 =
      .ok (create_fallback_task_breakdown
        (extract_technology_stack_from_analysis c2_analysis)) := by
  have h := C1_resilient_generation [none, none, none] [none, none, none]
    "a web portal rfp" none c2_analysis [] true none
  exact ⟨⟨by decide, Or.inr rfl⟩,
    h.2.2.1 (by decide),
    h.2.2.2.2.2.1 (Or.inr rfl) (by decide)⟩

end BudgetCalc
